import Mathlib

/-!
Verification of the zoning-constrained yield and scenario optimizer.

This file is a shallow embedding, in Lean, of the core of the feasibility
engine: the R-Code rule repository and geometry calculators
(`rCodesEngine.js`), the single-mix yield optimizer (`yieldEngine.js`),
and the two observed variants of the multi-scenario comparator
(`mixedScenario.service.js`), together with theorems checking the stated
properties of the system against this embedding.

All JavaScript numbers are modelled as exact rationals (ℚ).  Unit counts
are ℕ, rounded/ceiled bay counts are ℤ.  `null` returns are modelled as
`Option.none`.  Purely presentational string fields (descriptions, layout
prose, bay-dimension labels) are omitted from the records; every numeric
field and every field inspected by the algorithms is kept.
-/

/-- JavaScript's `Math.round`: round half away from zero for positive
arguments, i.e. `⌊q + 1/2⌋`. -/
def jsRound (q : ℚ) : ℤ := ⌊q + 1/2⌋

/-! ## Code Rule Repository (`rCodesEngine.js`, `R_CODE_RULES`) -/

/-- Setback distances of a code rule. -/
structure Setbacks where
  primaryStreet : ℚ
  secondaryStreet : ℚ
  side : ℚ
  rear : ℚ
deriving DecidableEq

/-- One entry of `R_CODE_RULES`.  The `typicalDensity` display string is
omitted. -/
structure CodeRule where
  label : String
  minLotSize : ℚ
  avgLotSize : ℚ
  maxPlotRatio : ℚ
  minOpenSpace : ℚ
  maxSiteCoverage : ℚ
  maxStories : ℚ
  maxWallHeight : ℚ
  maxBuildingHeight : ℚ
  setbacks : Setbacks
  parkingPerDwelling : ℚ
  visitorParkingRatio : ℚ
deriving DecidableEq

def R20 : CodeRule :=
  { label := "R20", minLotSize := 350, avgLotSize := 450, maxPlotRatio := 1/2
    minOpenSpace := 1/2, maxSiteCoverage := 1/2, maxStories := 2
    maxWallHeight := 6, maxBuildingHeight := 9
    setbacks := { primaryStreet := 6, secondaryStreet := 3/2, side := 3/2, rear := 6 }
    parkingPerDwelling := 2, visitorParkingRatio := 1/4 }

def R30 : CodeRule :=
  { label := "R30", minLotSize := 260, avgLotSize := 300, maxPlotRatio := 3/5
    minOpenSpace := 9/20, maxSiteCoverage := 11/20, maxStories := 2
    maxWallHeight := 6, maxBuildingHeight := 9
    setbacks := { primaryStreet := 4, secondaryStreet := 3/2, side := 1, rear := 3/2 }
    parkingPerDwelling := 2, visitorParkingRatio := 1/4 }

def R40 : CodeRule :=
  { label := "R40", minLotSize := 180, avgLotSize := 220, maxPlotRatio := 3/5
    minOpenSpace := 9/20, maxSiteCoverage := 3/5, maxStories := 2
    maxWallHeight := 7, maxBuildingHeight := 10
    setbacks := { primaryStreet := 4, secondaryStreet := 3/2, side := 1, rear := 3/2 }
    parkingPerDwelling := 3/2, visitorParkingRatio := 1/4 }

def R60 : CodeRule :=
  { label := "R60", minLotSize := 120, avgLotSize := 150, maxPlotRatio := 7/10
    minOpenSpace := 2/5, maxSiteCoverage := 13/20, maxStories := 3
    maxWallHeight := 9, maxBuildingHeight := 12
    setbacks := { primaryStreet := 4, secondaryStreet := 3/2, side := 1, rear := 3/2 }
    parkingPerDwelling := 1, visitorParkingRatio := 1/4 }

def R80 : CodeRule :=
  { label := "R80", minLotSize := 100, avgLotSize := 120, maxPlotRatio := 4/5
    minOpenSpace := 7/20, maxSiteCoverage := 7/10, maxStories := 4
    maxWallHeight := 12, maxBuildingHeight := 15
    setbacks := { primaryStreet := 3, secondaryStreet := 3/2, side := 1, rear := 1 }
    parkingPerDwelling := 1, visitorParkingRatio := 1/5 }

/-- Property names every plain JS object literal inherits from
`Object.prototype`. `R_CODE_RULES[k]` for any of these keys walks the
prototype chain and yields a truthy non-rule value (a built-in function, or
`Object.prototype` itself for the `__proto__` accessor), so `|| null` never
fires for them. -/
def objectPrototypeKeys : List String :=
  ["constructor", "hasOwnProperty", "isPrototypeOf", "propertyIsEnumerable",
   "toLocaleString", "toString", "valueOf", "__defineGetter__",
   "__defineSetter__", "__lookupGetter__", "__lookupSetter__", "__proto__"]

/-- Outcome of the JS expression `R_CODE_RULES[rCode] || null`: an own
property (one of the five rules), a truthy member inherited from
`Object.prototype` (not a rule — downstream code then produces `NaN`-valued
records or throws a `TypeError`), or `null`. -/
inductive RuleLookup where
  | rule (r : CodeRule)
  | inherited
  | nullSentinel
deriving DecidableEq

/-- `getRCodeRules(rCode)` in full: property lookup in the `R_CODE_RULES`
object literal, including the prototype-chain case for keys inherited from
`Object.prototype`; `null` only when the lookup yields `undefined`. -/
def getRCodeRulesJs (rCode : String) : RuleLookup :=
  if rCode = "R20" then .rule R20
  else if rCode = "R30" then .rule R30
  else if rCode = "R40" then .rule R40
  else if rCode = "R60" then .rule R60
  else if rCode = "R80" then .rule R80
  else if rCode ∈ objectPrototypeKeys then .inherited
  else .nullSentinel

/-- `getRCodeRules(rCode)` restricted to code strings that are not property
names inherited from `Object.prototype`: on those strings the lookup yields
either an own rule (`some`) or `undefined`, coerced to `null` (`none`), and
this agrees with `getRCodeRulesJs` (lemma `getRCodeRulesJs_agrees`). Every
definition below that takes a code string uses this restriction, so it
models the program on strings outside `objectPrototypeKeys`; the inherited
case is covered by `getRCodeRulesJs`. -/
def getRCodeRules (rCode : String) : Option CodeRule :=
  if rCode = "R20" then some R20
  else if rCode = "R30" then some R30
  else if rCode = "R40" then some R40
  else if rCode = "R60" then some R60
  else if rCode = "R80" then some R80
  else none

/-- `getAllRCodes()`: the keys of `R_CODE_RULES` in insertion order. -/
def getAllRCodes : List String := ["R20", "R30", "R40", "R60", "R80"]

/-- The five rule records, in table order (used to state table-wide
invariants). -/
def allRules : List CodeRule := [R20, R30, R40, R60, R80]

/-! ## Geometry Calculators (`rCodesEngine.js`) -/

/-- Result record of `calculateBuildableArea`. -/
structure BuildableArea where
  totalLotArea : ℚ
  maxSiteCoverage : ℚ
  maxGFA : ℚ
  minOpenSpaceArea : ℚ
  usableBuildArea : ℚ
  maxStories : ℚ
deriving DecidableEq

/-- Body of `calculateBuildableArea` once the rule is known. -/
def buildableAreaOfRule (lotArea : ℚ) (rules : CodeRule) : BuildableArea :=
  let maxFootprint := lotArea * rules.maxSiteCoverage
  let maxGFA := lotArea * rules.maxPlotRatio * rules.maxStories
  let minOpenSpaceArea := lotArea * rules.minOpenSpace
  let usableBuildArea := lotArea - minOpenSpaceArea
  { totalLotArea := lotArea, maxSiteCoverage := maxFootprint, maxGFA := maxGFA
    minOpenSpaceArea := minOpenSpaceArea, usableBuildArea := usableBuildArea
    maxStories := rules.maxStories }

/-- `calculateBuildableArea(lotArea, rCode)`: `null` for an unknown code. -/
def calculateBuildableArea (lotArea : ℚ) (rCode : String) : Option BuildableArea :=
  (getRCodeRules rCode).map (buildableAreaOfRule lotArea)

/-- Result record of `calculateBuildableEnvelope`. -/
structure Envelope where
  lotWidth : ℚ
  lotDepth : ℚ
  effectiveWidth : ℚ
  effectiveDepth : ℚ
  envelopeArea : ℚ
  setbacks : Setbacks
deriving DecidableEq

/-- Body of `calculateBuildableEnvelope` once the rule is known.  Note the
source clamps the *product* of the raw effective dimensions
(`Math.max(0, effectiveWidth * effectiveDepth)`), while the two reported
dimensions are clamped individually. -/
def envelopeOfRule (lotWidth lotDepth : ℚ) (rules : CodeRule) : Envelope :=
  let effectiveWidth := lotWidth - rules.setbacks.side * 2
  let effectiveDepth := lotDepth - rules.setbacks.primaryStreet - rules.setbacks.rear
  let envelopeArea := max 0 (effectiveWidth * effectiveDepth)
  { lotWidth := lotWidth, lotDepth := lotDepth
    effectiveWidth := max 0 effectiveWidth, effectiveDepth := max 0 effectiveDepth
    envelopeArea := envelopeArea, setbacks := rules.setbacks }

/-- `calculateBuildableEnvelope(lotWidth, lotDepth, rCode)`: `null` for an
unknown code. -/
def calculateBuildableEnvelope (lotWidth lotDepth : ℚ) (rCode : String) : Option Envelope :=
  (getRCodeRules rCode).map (envelopeOfRule lotWidth lotDepth)

/-- Result record of `calculateParkingRequirements` (the `bayDimensions`
display string is omitted). -/
structure Parking where
  residentBays : ℤ
  visitorBays : ℤ
  totalBays : ℤ
  parkingArea : ℚ
deriving DecidableEq

/-- Body of `calculateParkingRequirements` once the rule is known. -/
def parkingOfRule (numDwellings : ℕ) (rules : CodeRule) : Parking :=
  let residentBays := ⌈(numDwellings : ℚ) * rules.parkingPerDwelling⌉
  let visitorBays := ⌈(numDwellings : ℚ) * rules.visitorParkingRatio⌉
  let totalBays := residentBays + visitorBays
  { residentBays := residentBays, visitorBays := visitorBays, totalBays := totalBays
    parkingArea := (totalBays : ℚ) * 18 }

/-- `calculateParkingRequirements(numDwellings, rCode)`: `null` for an
unknown code. -/
def calculateParkingRequirements (numDwellings : ℕ) (rCode : String) : Option Parking :=
  (getRCodeRules rCode).map (parkingOfRule numDwellings)

/-! ## Single-Mix Yield Optimizer (`yieldEngine.js`) -/

/-- One dwelling-type template of `DWELLING_TYPES` (display label omitted). -/
structure DwellingType where
  groundFloorArea : ℚ
  totalBuildArea : ℚ
  internalGarage : ℚ
  minLotWidth : ℚ
  stories : ℚ
deriving DecidableEq

def dwelling2bed : DwellingType := ⟨55, 100, 18, 6, 2⟩
def dwelling3bed : DwellingType := ⟨70, 145, 20, 15/2, 2⟩
def dwelling4bed : DwellingType := ⟨95, 200, 22, 9, 2⟩

/-- A dwelling mix: the count of each of the three catalog types. -/
structure Mix where
  twoBed : ℕ
  threeBed : ℕ
  fourBed : ℕ
deriving DecidableEq

/-- Site layout classification returned by `determineSiteLayout`. -/
inductive SiteLayout
  | battleAxe
  | wideFrontage
  | standard
deriving DecidableEq

/-- `determineSiteLayout(lotWidth, lotDepth)`. -/
def determineSiteLayout (lotWidth lotDepth : ℚ) : SiteLayout :=
  if lotDepth / lotWidth > 5/2 then .battleAxe
  else if lotWidth > lotDepth * (6/5) then .wideFrontage
  else .standard

/-- Result record of `calculateInfrastructureArea`. -/
structure InfraArea where
  drivewayArea : ℚ
  turningArea : ℚ
  commonLandscaping : ℚ
  totalInfraArea : ℚ
deriving DecidableEq

/-- `calculateInfrastructureArea(numDwellings, layout)`. -/
def calculateInfrastructureArea (numDwellings : ℕ) (layout : SiteLayout) : InfraArea :=
  let drivewayWidth : ℚ := if numDwellings > 3 then 6 else 7/2
  let drivewayLength : ℚ := if layout = .battleAxe then 25 else 15
  let drivewayArea := drivewayWidth * drivewayLength
  let turningArea : ℚ := if numDwellings > 4 then 50 else 0
  let commonLandscaping : ℚ := (numDwellings : ℚ) * 8
  { drivewayArea := drivewayArea, turningArea := turningArea
    commonLandscaping := commonLandscaping
    totalInfraArea := drivewayArea + turningArea + commonLandscaping }

/-- An `EvaluatedConfiguration` as produced by `evaluateMix`.  The JS
`compliance` sub-object is flattened into the four `...Ok` flags; the
`dwellingDetails` display list is omitted. -/
structure EvaluatedConfig where
  mix : Mix
  totalUnits : ℕ
  totalGFA : ℚ
  totalFootprint : ℚ
  estimatedRevenue : ℚ
  infrastructure : InfraArea
  parking : Parking
  totalCoverage : ℚ
  openSpace : ℚ
  plotRatio : ℚ
  siteCoverageRatio : ℚ
  openSpaceRatio : ℚ
  plotRatioOk : Bool
  siteCoverageOk : Bool
  openSpaceOk : Bool
  fitsInEnvelope : Bool
  compliant : Bool
deriving DecidableEq

/-- `evaluateMix(mix, lotArea, lotWidth, lotDepth, rules, layout, envelope)`.

For `totalUnits = 0` the source returns a partial object
`{compliant: false, totalUnits: 0, estimatedRevenue: 0}`; the remaining
fields (never read by any caller in that case) are modelled as zeros.

The source computes parking as
`calculateParkingRequirements(totalUnits, rules.label)`, a fresh repository
lookup by the rule's own label; by `getRCodeRules_label` that lookup is the
identity for every rule the optimizer can pass in, so it is modelled as
`parkingOfRule totalUnits rules`.  `lotWidth` and `lotDepth` are accepted
but unused, exactly as in the source. -/
def evaluateMix (mix : Mix) (lotArea _lotWidth _lotDepth : ℚ) (rules : CodeRule)
    (layout : SiteLayout) (envelope : Envelope) : EvaluatedConfig :=
  let totalUnits := mix.twoBed + mix.threeBed + mix.fourBed
  if totalUnits = 0 then
    { mix := mix, totalUnits := 0, totalGFA := 0, totalFootprint := 0
      estimatedRevenue := 0, infrastructure := ⟨0, 0, 0, 0⟩, parking := ⟨0, 0, 0, 0⟩
      totalCoverage := 0, openSpace := 0, plotRatio := 0, siteCoverageRatio := 0
      openSpaceRatio := 0, plotRatioOk := false, siteCoverageOk := false
      openSpaceOk := false, fitsInEnvelope := false, compliant := false }
  else
    let estimatedRevenue : ℚ :=
      (mix.twoBed : ℚ) * 450000 + (mix.threeBed : ℚ) * 620000 + (mix.fourBed : ℚ) * 780000
    let totalGFA : ℚ :=
      (mix.twoBed : ℚ) * dwelling2bed.totalBuildArea
        + (mix.threeBed : ℚ) * dwelling3bed.totalBuildArea
        + (mix.fourBed : ℚ) * dwelling4bed.totalBuildArea
    let totalFootprint : ℚ :=
      (mix.twoBed : ℚ) * dwelling2bed.groundFloorArea
        + (mix.threeBed : ℚ) * dwelling3bed.groundFloorArea
        + (mix.fourBed : ℚ) * dwelling4bed.groundFloorArea
    let infra := calculateInfrastructureArea totalUnits layout
    let parking := parkingOfRule totalUnits rules
    let externalParkingArea : ℚ := (parking.visitorBays : ℚ) * 15
    let totalCoverage := totalFootprint + infra.totalInfraArea + externalParkingArea
    let openSpace := lotArea - totalCoverage
    let plotRatio := totalGFA / lotArea
    let siteCoverageRatio := totalCoverage / lotArea
    let openSpaceRatio := openSpace / lotArea
    let plotRatioOk := decide (plotRatio ≤ rules.maxPlotRatio)
    let siteCoverageOk := decide (siteCoverageRatio ≤ rules.maxSiteCoverage)
    let openSpaceOk := decide (openSpaceRatio ≥ rules.minOpenSpace)
    let fitsInEnvelope := decide (totalCoverage ≤ envelope.envelopeArea + infra.totalInfraArea)
    { mix := mix, totalUnits := totalUnits, totalGFA := totalGFA
      totalFootprint := totalFootprint, estimatedRevenue := estimatedRevenue
      infrastructure := infra, parking := parking, totalCoverage := totalCoverage
      openSpace := openSpace, plotRatio := plotRatio
      siteCoverageRatio := siteCoverageRatio, openSpaceRatio := openSpaceRatio
      plotRatioOk := plotRatioOk, siteCoverageOk := siteCoverageOk
      openSpaceOk := openSpaceOk, fitsInEnvelope := fitsInEnvelope
      compliant := plotRatioOk && siteCoverageOk && openSpaceOk }

/-- `generateMixes(totalUnits, lotWidth, rules)`.  `lotWidth` and `rules`
are accepted but unused, as in the source.  The four-bed bound
`Math.min(totalUnits, Math.floor(totalUnits * 0.3))` agrees with
`min totalUnits (3 * totalUnits / 10)` (ℕ division) for every total the
optimizer explores (1..20). -/
def generateMixes (totalUnits : ℕ) (_lotWidth : ℚ) (_rules : CodeRule) : List Mix :=
  (List.range (min totalUnits (3 * totalUnits / 10) + 1)).flatMap fun fourBed =>
    (List.range (totalUnits - fourBed + 1)).map fun threeBed =>
      { twoBed := totalUnits - fourBed - threeBed, threeBed := threeBed, fourBed := fourBed }

/-- Input record of `optimizeYield` and of the comparator generators. -/
structure Property where
  lotArea : ℚ
  lotWidth : ℚ
  lotDepth : ℚ
  rCode : String
deriving DecidableEq

/-- Output of `optimizeYield`: the winning (or fallback) evaluated
configuration spread together with the layout, the code and its rule.
The `layoutDescription` prose is omitted. -/
structure YieldResult where
  config : EvaluatedConfig
  layout : SiteLayout
  rCode : String
  rules : CodeRule
deriving DecidableEq

/-- The flattened enumeration order of the optimizer's nested loops:
total unit counts 1..20, and for each total the mixes of
`generateMixes`. -/
def yieldMixes (lotWidth : ℚ) (rules : CodeRule) : List Mix :=
  (List.range 20).flatMap fun k => generateMixes (k + 1) lotWidth rules

/-- `optimizeYield(params)`: `null` for an unknown code; otherwise the
best-revenue compliant configuration of the enumeration (strict
improvement only, so the first configuration attaining the best revenue
is kept), with the single-2-bed fallback when nothing is compliant. -/
def optimizeYield (params : Property) : Option YieldResult :=
  match getRCodeRules params.rCode with
  | none => none
  | some rules =>
    let layout := determineSiteLayout params.lotWidth params.lotDepth
    let envelope := envelopeOfRule params.lotWidth params.lotDepth rules
    let best := (yieldMixes params.lotWidth rules).foldl
      (fun best mix =>
        let result := evaluateMix mix params.lotArea params.lotWidth params.lotDepth
          rules layout envelope
        if result.compliant then
          match best with
          | none => some result
          | some b => if b.estimatedRevenue < result.estimatedRevenue then some result else some b
        else best) none
    let bestResult := match best with
      | some b => b
      | none => evaluateMix ⟨1, 0, 0⟩ params.lotArea params.lotWidth params.lotDepth
          rules layout envelope
    some { config := bestResult, layout := layout, rCode := params.rCode, rules := rules }

/-- The evaluated configurations of the whole enumeration, in enumeration
order. -/
def yieldEvals (params : Property) (rules : CodeRule) : List EvaluatedConfig :=
  (yieldMixes params.lotWidth rules).map fun mix =>
    evaluateMix mix params.lotArea params.lotWidth params.lotDepth rules
      (determineSiteLayout params.lotWidth params.lotDepth)
      (envelopeOfRule params.lotWidth params.lotDepth rules)

/-! ## Multi-Scenario Comparator (`mixedScenario.service.js`, two variants) -/

/-- The three unit-template keys, in the object-literal key order
`'2bed', '3bed', '4bed'`. -/
inductive UnitType
  | twoBed
  | threeBed
  | fourBed
deriving DecidableEq

def typeOrder : List UnitType := [.twoBed, .threeBed, .fourBed]

/-- The count a mix assigns to one unit-template key; used to state
per-type properties of scenario mixes. -/
def Mix.count (m : Mix) : UnitType → ℕ
  | .twoBed => m.twoBed
  | .threeBed => m.threeBed
  | .fourBed => m.fourBed

/-- One entry of the comparator's `UNIT_TEMPLATES` (display label
omitted). -/
structure UnitTemplate where
  footprint : ℚ
  gfa : ℚ
  parking : ℚ
deriving DecidableEq

/-- The comparator's `UNIT_TEMPLATES` (identical in both variants; note
the 3-bed/4-bed footprints differ from the yield engine's
`DWELLING_TYPES`). -/
def UNIT_TEMPLATES : UnitType → UnitTemplate
  | .twoBed => ⟨55, 100, 1⟩
  | .threeBed => ⟨75, 145, 3/2⟩
  | .fourBed => ⟨100, 200, 2⟩

/-- A scenario definition's target-ratio object. -/
structure ScenarioRatios where
  twoBed : ℚ
  threeBed : ℚ
  fourBed : ℚ
deriving DecidableEq

def ScenarioRatios.get (r : ScenarioRatios) : UnitType → ℚ
  | .twoBed => r.twoBed
  | .threeBed => r.threeBed
  | .fourBed => r.fourBed

/-- One entry of `SCENARIO_DEFINITIONS` (description/strategy prose
omitted). -/
structure ScenarioDef where
  name : String
  riskLevel : String
  ratios : ScenarioRatios
deriving DecidableEq

/-- The seven scenario definitions (identical in both variants). -/
def SCENARIO_DEFINITIONS : List ScenarioDef :=
  [ ⟨"Balanced Affordable", "LOW", ⟨1/2, 1/2, 0⟩⟩
  , ⟨"3-Bed Dominant", "LOW", ⟨3/10, 7/10, 0⟩⟩
  , ⟨"Balanced Premium", "MEDIUM", ⟨0, 1/2, 1/2⟩⟩
  , ⟨"4-Bed Dominant", "MEDIUM-HIGH", ⟨0, 3/10, 7/10⟩⟩
  , ⟨"Diversified Mix", "LOW", ⟨3/10, 2/5, 3/10⟩⟩
  , ⟨"Entry-Level Focus", "LOW", ⟨3/5, 2/5, 0⟩⟩
  , ⟨"Mainstream Focus", "LOW", ⟨1/5, 3/5, 1/5⟩⟩ ]

/-- `Object.keys(ratios).filter(k => ratios[k] > 0)`: the types with a
positive target ratio, in key order. -/
def ratioTypes (r : ScenarioRatios) : List UnitType :=
  typeOrder.filter fun t => decide (0 < r.get t)

/-- The count-assignment loop of `calculateMixedConfig` (both variants):
every type except the last gets `Math.round(totalTarget * ratio)`, the
last gets the remainder `totalTarget - assigned`. -/
def assignCounts (r : ScenarioRatios) (totalTarget : ℕ) :
    List UnitType → ℤ → List (UnitType × ℤ)
  | [], _ => []
  | [t], assigned => [(t, (totalTarget : ℤ) - assigned)]
  | t :: u :: rest, assigned =>
    let c := jsRound ((totalTarget : ℚ) * r.get t)
    (t, c) :: assignCounts r totalTarget (u :: rest) (assigned + c)

/-- The per-trial unit counts of `calculateMixedConfig` (both variants):
the assignment loop over the positive-ratio types, then every
positive-ratio type is clamped up to at least 1 and every zero-ratio type
is set to 0. -/
def countsFor (r : ScenarioRatios) (totalTarget : ℕ) : Mix :=
  let cs := assignCounts r totalTarget (ratioTypes r) 0
  let count := fun t =>
    match cs.lookup t with
    | some c => (max c 1).toNat
    | none => 0
  ⟨count .twoBed, count .threeBed, count .fourBed⟩

/-- Caller-supplied (or default) per-type sale prices. -/
structure Prices where
  twoBed : ℚ
  threeBed : ℚ
  fourBed : ℚ
deriving DecidableEq

def defaultPrices : Prices := ⟨550000, 650000, 780000⟩

namespace MixedScenarioV1

/-- One unit-count trial of variant 1's `calculateMixedConfig`, before
the constraint and utilization checks: the raw (unrounded) totals. -/
structure Cand where
  counts : Mix
  actualTotal : ℕ
  totalFootprint : ℚ
  totalGFA : ℚ
  totalParking : ℚ
  utilization : ℚ
deriving DecidableEq

/-- Build the trial for one `totalTarget`. -/
def mkCand (maxGFA : ℚ) (templates : UnitType → UnitTemplate) (ratios : ScenarioRatios)
    (totalTarget : ℕ) : Cand :=
  let counts := countsFor ratios totalTarget
  let actualTotal := counts.twoBed + counts.threeBed + counts.fourBed
  let totalFootprint : ℚ :=
    (counts.twoBed : ℚ) * (templates .twoBed).footprint
      + (counts.threeBed : ℚ) * (templates .threeBed).footprint
      + (counts.fourBed : ℚ) * (templates .fourBed).footprint
  let totalGFA : ℚ :=
    (counts.twoBed : ℚ) * (templates .twoBed).gfa
      + (counts.threeBed : ℚ) * (templates .threeBed).gfa
      + (counts.fourBed : ℚ) * (templates .fourBed).gfa
  let totalParking : ℚ :=
    (counts.twoBed : ℚ) * (templates .twoBed).parking
      + (counts.threeBed : ℚ) * (templates .threeBed).parking
      + (counts.fourBed : ℚ) * (templates .fourBed).parking
  { counts := counts, actualTotal := actualTotal, totalFootprint := totalFootprint
    totalGFA := totalGFA, totalParking := totalParking
    utilization := totalGFA / maxGFA }

/-- The three `continue` guards of variant 1: footprint and GFA ceilings
plus the 50–95% utilization band. -/
def passes (maxFootprint maxGFA : ℚ) (c : Cand) : Bool :=
  decide (c.totalFootprint ≤ maxFootprint) && decide (c.totalGFA ≤ maxGFA)
    && decide ((1/2 : ℚ) ≤ c.utilization) && decide (c.utilization ≤ 19/20)

/-- The `bestConfig` record stored for a winning trial (rounded values,
as in the source). -/
structure Config where
  counts : Mix
  totalUnits : ℕ
  totalFootprint : ℤ
  totalGFA : ℤ
  totalParking : ℤ
  utilization : ℤ
deriving DecidableEq

def Cand.toConfig (c : Cand) : Config :=
  { counts := c.counts, totalUnits := c.actualTotal
    totalFootprint := jsRound c.totalFootprint, totalGFA := jsRound c.totalGFA
    totalParking := ⌈c.totalParking⌉, utilization := jsRound (c.utilization * 100) }

/-- The unit-count trials of variant 1, `totalTarget = 4..20`. -/
def candidates (maxGFA : ℚ) (templates : UnitType → UnitTemplate)
    (ratios : ScenarioRatios) : List Cand :=
  (List.range' 4 17).map (mkCand maxGFA templates ratios)

/-- Variant 1's `calculateMixedConfig(maxFootprint, maxGFA, templates,
ratios)`: keep the passing trial with the strictly highest utilization
(`bestUtilization` starts at 0), `null` if none passes. -/
def calculateMixedConfig (maxFootprint maxGFA : ℚ) (templates : UnitType → UnitTemplate)
    (ratios : ScenarioRatios) : Option Config :=
  let r := (candidates maxGFA templates ratios).foldl
    (fun best c =>
      if passes maxFootprint maxGFA c then
        if best.1 < c.utilization then (c.utilization, some c) else best
      else best)
    ((0 : ℚ), none)
  r.2.map Cand.toConfig

/-- A scenario object of variant 1's `createScenario` (description,
strategy and the `mixBreakdown` display list omitted). -/
structure Scenario where
  name : String
  riskLevel : String
  mix : Mix
  totalUnits : ℕ
  totalFootprint : ℤ
  totalGFA : ℤ
  totalParking : ℤ
  utilization : ℤ
  estimatedGRV : ℚ
  plotRatio : ℚ
deriving DecidableEq

def createScenario (sd : ScenarioDef) (config : Config) (prices : Prices)
    (lotArea : ℚ) : Scenario :=
  { name := sd.name, riskLevel := sd.riskLevel, mix := config.counts
    totalUnits := config.totalUnits, totalFootprint := config.totalFootprint
    totalGFA := config.totalGFA, totalParking := config.totalParking
    utilization := config.utilization
    estimatedGRV := (config.counts.twoBed : ℚ) * prices.twoBed
      + (config.counts.threeBed : ℚ) * prices.threeBed
      + (config.counts.fourBed : ℚ) * prices.fourBed
    plotRatio := (config.totalGFA : ℚ) / lotArea }

/-- Caller constraint overrides of variant 1 (`constraints?.maxFootprint`,
`constraints?.maxGFA`).  The JS `||` fallback also fires on an explicit 0;
the claims only exercise absent constraints, modelled as `none`. -/
structure Constraints where
  maxFootprint : ℚ
  maxGFA : ℚ
deriving DecidableEq

/-- Variant 1's `generateMixedScenarios(property, constraints,
marketData)`: empty for an unknown code, otherwise one scenario per
definition with a viable configuration. -/
def generateMixedScenarios (property : Property) (constraints : Option Constraints)
    (marketData : Option Prices) : List Scenario :=
  match calculateBuildableArea property.lotArea property.rCode with
  | none => []
  | some buildable =>
    let maxFootprint := match constraints with
      | some cs => cs.maxFootprint
      | none => buildable.maxSiteCoverage
    let maxGFA := match constraints with
      | some cs => cs.maxGFA
      | none => buildable.maxGFA
    let prices := marketData.getD defaultPrices
    SCENARIO_DEFINITIONS.filterMap fun sd =>
      (calculateMixedConfig maxFootprint maxGFA UNIT_TEMPLATES sd.ratios).map fun config =>
        createScenario sd config prices property.lotArea

end MixedScenarioV1

namespace MixedScenarioV2

/-- One unit-count trial of variant 2's `calculateMixedConfig`, before the
compliance checks: the raw (unrounded) quantities.  `parking` is the
result of `calculateParkingRequirements(actualTotal, rules.label)`, which
variant 2 null-guards (`parking ? parking.visitorBays * 15 : 0`). -/
structure Cand where
  counts : Mix
  actualTotal : ℕ
  totalFootprint : ℚ
  totalGFA : ℚ
  totalParking : ℚ
  infrastructure : InfraArea
  parking : Option Parking
  visitorParkingArea : ℚ
  totalCoverage : ℚ
  openSpace : ℚ
  plotRatio : ℚ
  siteCoverageRatio : ℚ
  openSpaceRatio : ℚ
  lotSizePerUnit : ℚ
  utilization : ℚ
deriving DecidableEq

/-- Build the trial for one `totalTarget`.  `layout` is
`determineSiteLayout(lotWidth, lotDepth)` and `maxGFA` is
`lotArea * rules.maxPlotRatio` (single-storey cap, unlike variant 1). -/
def mkCand (lotArea : ℚ) (layout : SiteLayout) (maxGFA : ℚ) (rules : CodeRule)
    (templates : UnitType → UnitTemplate) (ratios : ScenarioRatios)
    (totalTarget : ℕ) : Cand :=
  let counts := countsFor ratios totalTarget
  let actualTotal := counts.twoBed + counts.threeBed + counts.fourBed
  let totalFootprint : ℚ :=
    (counts.twoBed : ℚ) * (templates .twoBed).footprint
      + (counts.threeBed : ℚ) * (templates .threeBed).footprint
      + (counts.fourBed : ℚ) * (templates .fourBed).footprint
  let totalGFA : ℚ :=
    (counts.twoBed : ℚ) * (templates .twoBed).gfa
      + (counts.threeBed : ℚ) * (templates .threeBed).gfa
      + (counts.fourBed : ℚ) * (templates .fourBed).gfa
  let totalParking : ℚ :=
    (counts.twoBed : ℚ) * (templates .twoBed).parking
      + (counts.threeBed : ℚ) * (templates .threeBed).parking
      + (counts.fourBed : ℚ) * (templates .fourBed).parking
  let infra := calculateInfrastructureArea actualTotal layout
  let parking := calculateParkingRequirements actualTotal rules.label
  let visitorParkingArea : ℚ := match parking with
    | some p => (p.visitorBays : ℚ) * 15
    | none => 0
  let totalCoverage := totalFootprint + infra.totalInfraArea + visitorParkingArea
  let openSpace := lotArea - totalCoverage
  { counts := counts, actualTotal := actualTotal, totalFootprint := totalFootprint
    totalGFA := totalGFA, totalParking := totalParking, infrastructure := infra
    parking := parking, visitorParkingArea := visitorParkingArea
    totalCoverage := totalCoverage, openSpace := openSpace
    plotRatio := totalGFA / lotArea, siteCoverageRatio := totalCoverage / lotArea
    openSpaceRatio := openSpace / lotArea
    lotSizePerUnit := lotArea / (actualTotal : ℚ)
    utilization := totalGFA / maxGFA }

/-- Variant 2's single `continue` guard: the four compliance checks.
There is no utilization band. -/
def passes (rules : CodeRule) (c : Cand) : Bool :=
  decide (c.plotRatio ≤ rules.maxPlotRatio)
    && decide (c.siteCoverageRatio ≤ rules.maxSiteCoverage)
    && decide (c.openSpaceRatio ≥ rules.minOpenSpace)
    && decide (c.lotSizePerUnit ≥ rules.minLotSize)

/-- The `bestConfig` record stored for a winning trial (rounded values;
the nested `compliance` object's three ratios are rounded to 3 decimals
as `Math.round(x*1000)/1000`). -/
structure Config where
  counts : Mix
  totalUnits : ℕ
  totalFootprint : ℤ
  totalGFA : ℤ
  totalParking : ℤ
  utilization : ℤ
  infrastructure : InfraArea
  visitorParkingArea : ℚ
  totalCoverage : ℤ
  openSpace : ℤ
  parking : Option Parking
  plotRatio : ℚ
  siteCoverageRatio : ℚ
  openSpaceRatio : ℚ
  lotSizePerUnit : ℤ
deriving DecidableEq

def Cand.toConfig (c : Cand) : Config :=
  { counts := c.counts, totalUnits := c.actualTotal
    totalFootprint := jsRound c.totalFootprint, totalGFA := jsRound c.totalGFA
    totalParking := ⌈c.totalParking⌉, utilization := jsRound (c.utilization * 100)
    infrastructure := c.infrastructure, visitorParkingArea := c.visitorParkingArea
    totalCoverage := jsRound c.totalCoverage, openSpace := jsRound c.openSpace
    parking := c.parking
    plotRatio := (jsRound (c.plotRatio * 1000) : ℚ) / 1000
    siteCoverageRatio := (jsRound (c.siteCoverageRatio * 1000) : ℚ) / 1000
    openSpaceRatio := (jsRound (c.openSpaceRatio * 1000) : ℚ) / 1000
    lotSizePerUnit := jsRound c.lotSizePerUnit }

/-- The unit-count trials of variant 2, `totalTarget = 2..20`. -/
def candidates (lotArea lotWidth lotDepth : ℚ) (rules : CodeRule)
    (templates : UnitType → UnitTemplate) (ratios : ScenarioRatios) : List Cand :=
  (List.range' 2 19).map
    (mkCand lotArea (determineSiteLayout lotWidth lotDepth)
      (lotArea * rules.maxPlotRatio) rules templates ratios)

/-- Variant 2's `calculateMixedConfig(lotArea, lotWidth, lotDepth, rules,
templates, ratios)`: keep the compliant trial with the strictly highest
utilization (`bestUtilization` starts at 0), `null` if none is
compliant. -/
def calculateMixedConfig (lotArea lotWidth lotDepth : ℚ) (rules : CodeRule)
    (templates : UnitType → UnitTemplate) (ratios : ScenarioRatios) : Option Config :=
  let r := (candidates lotArea lotWidth lotDepth rules templates ratios).foldl
    (fun best c =>
      if passes rules c then
        if best.1 < c.utilization then (c.utilization, some c) else best
      else best)
    ((0 : ℚ), none)
  r.2.map Cand.toConfig

/-- A scenario object of variant 2's `createScenario` (description,
strategy, the `mixBreakdown` display list and the echoed rule limits of
the `compliance` object omitted). -/
structure Scenario where
  name : String
  riskLevel : String
  mix : Mix
  totalUnits : ℕ
  totalFootprint : ℤ
  totalGFA : ℤ
  totalParking : ℤ
  utilization : ℤ
  estimatedGRV : ℚ
  plotRatio : ℚ
  siteCoverageRatio : ℚ
  openSpaceRatio : ℚ
  lotSizePerUnit : ℤ
  infrastructure : InfraArea
  visitorParkingArea : ℚ
  totalCoverage : ℤ
  openSpace : ℤ
  parking : Option Parking
deriving DecidableEq

def createScenario (sd : ScenarioDef) (config : Config) (prices : Prices) : Scenario :=
  { name := sd.name, riskLevel := sd.riskLevel, mix := config.counts
    totalUnits := config.totalUnits, totalFootprint := config.totalFootprint
    totalGFA := config.totalGFA, totalParking := config.totalParking
    utilization := config.utilization
    estimatedGRV := (config.counts.twoBed : ℚ) * prices.twoBed
      + (config.counts.threeBed : ℚ) * prices.threeBed
      + (config.counts.fourBed : ℚ) * prices.fourBed
    plotRatio := config.plotRatio, siteCoverageRatio := config.siteCoverageRatio
    openSpaceRatio := config.openSpaceRatio, lotSizePerUnit := config.lotSizePerUnit
    infrastructure := config.infrastructure
    visitorParkingArea := config.visitorParkingArea
    totalCoverage := config.totalCoverage, openSpace := config.openSpace
    parking := config.parking }

/-- Variant 2's `generateMixedScenarios(property, _constraints,
marketData)`: empty for an unknown code; the `_constraints` argument is
accepted but unused, as in the source. -/
def generateMixedScenarios (property : Property)
    (_constraints : Option MixedScenarioV1.Constraints)
    (marketData : Option Prices) : List Scenario :=
  match getRCodeRules property.rCode with
  | none => []
  | some rules =>
    let prices := marketData.getD defaultPrices
    SCENARIO_DEFINITIONS.filterMap fun sd =>
      (calculateMixedConfig property.lotArea property.lotWidth property.lotDepth
          rules UNIT_TEMPLATES sd.ratios).map fun config =>
        createScenario sd config prices

end MixedScenarioV2

/-! ## Fold combinators shared by the search loops -/

section SelectBest

variable {α : Type _} (f : α → ℚ) (P : α → Bool)

/-- The optimizer's accumulation step: take the first passing element,
then replace only on a strictly better score. -/
def selectStep (best : Option α) (x : α) : Option α :=
  if P x then
    match best with
    | none => some x
    | some b => if f b < f x then some x else some b
  else best

/-- The optimizer's selection loop over a candidate list. -/
def selectBest (xs : List α) : Option α := xs.foldl (selectStep f P) none

/-- Recursive characterization of "first element attaining the maximum
of `f`": the head wins unless some element of the tail is strictly
better. -/
def firstArgmax : List α → Option α
  | [] => none
  | x :: xs =>
    match firstArgmax xs with
    | none => some x
    | some m => if f x < f m then some m else some x

end SelectBest

section UtilFold

variable {α : Type _} (f : α → ℚ) (P : α → Bool)

/-- The comparator's accumulation step (both variants): keep a passing
candidate only when it strictly beats the best utilization so far, which
starts at 0. -/
def utilStep (best : ℚ × Option α) (c : α) : ℚ × Option α :=
  if P c then (if best.1 < f c then (f c, some c) else best) else best

/-- The comparator's selection loop over the unit-count trials. -/
def utilFold (xs : List α) : ℚ × Option α := xs.foldl (utilStep f P) (0, none)

end UtilFold

/-! ## Theorems -/

section RepositoryLemmas

/-- Looking a repository rule up again by its own `label` field is the
identity: every entry's `label` equals its key. -/
theorem getRCodeRules_label (c : String) (r : CodeRule) (h : getRCodeRules c = some r) :
    getRCodeRules r.label = some r ∧ r.label = c := by
  unfold getRCodeRules at h ⊢
  repeat' split at h
  all_goals cases h
  all_goals simp_all [R20, R30, R40, R60, R80]

/-- On every code string that is not an `Object.prototype` property name, the
full lookup `getRCodeRulesJs` and its `Option`-valued restriction
`getRCodeRules` agree: a rule maps to `some`, the `null` outcome to `none`. -/
theorem getRCodeRulesJs_agrees (code : String) (h : code ∉ objectPrototypeKeys) :
    getRCodeRulesJs code
      = match getRCodeRules code with
        | some r => RuleLookup.rule r
        | none => RuleLookup.nullSentinel := by
  unfold getRCodeRulesJs getRCodeRules
  repeat' split
  all_goals simp_all

/-- When the full lookup really yields `null`, the restricted lookup yields
`none`. -/
theorem getRCodeRules_eq_none_of_js (code : String)
    (h : getRCodeRulesJs code = RuleLookup.nullSentinel) :
    getRCodeRules code = none := by
  unfold getRCodeRulesJs at h
  unfold getRCodeRules
  repeat' split at h
  all_goals simp_all

end RepositoryLemmas

section SelectBestLemmas

variable {α : Type _} (f : α → ℚ) (P : α → Bool)

theorem firstArgmax_cons (x : α) (xs : List α) :
    firstArgmax f (x :: xs)
      = match firstArgmax f xs with
        | none => some x
        | some m => if f x < f m then some m else some x := rfl

theorem firstArgmax_eq_none (l : List α) (h : firstArgmax f l = none) : l = [] := by
  cases l with
  | nil => rfl
  | cons x xs =>
    exfalso
    rw [firstArgmax_cons] at h
    cases hm : firstArgmax f xs with
    | none => rw [hm] at h; exact absurd h (by simp)
    | some m =>
      rw [hm] at h
      dsimp only at h
      split at h <;> simp_all

/-- The first argmax splits the list into a strictly-smaller prefix, the
maximum itself, and a no-larger remainder. -/
theorem firstArgmax_spec (l : List α) (m : α) (h : firstArgmax f l = some m) :
    ∃ l₁ l₂, l = l₁ ++ m :: l₂ ∧ (∀ a ∈ l₁, f a < f m) ∧ ∀ a ∈ l, f a ≤ f m := by
  induction l generalizing m with
  | nil => exact absurd h (by simp [firstArgmax])
  | cons x xs ih =>
    rw [firstArgmax_cons] at h
    cases hm : firstArgmax f xs with
    | none =>
      have hxs : xs = [] := firstArgmax_eq_none f xs hm
      subst hxs
      rw [hm] at h
      dsimp only at h
      cases h
      exact ⟨[], [], rfl, by simp, by simp⟩
    | some m' =>
      rw [hm] at h
      dsimp only at h
      by_cases hlt : f x < f m'
      · rw [if_pos hlt] at h
        injection h with h
        subst h
        obtain ⟨l₁, l₂, hsplit, hpre, hall⟩ := ih m' hm
        refine ⟨x :: l₁, l₂, by rw [hsplit, List.cons_append], ?_, ?_⟩
        · intro a ha
          rcases List.mem_cons.mp ha with rfl | ha
          · exact hlt
          · exact hpre a ha
        · intro a ha
          rcases List.mem_cons.mp ha with rfl | ha
          · exact le_of_lt hlt
          · exact hall a ha
      · rw [if_neg hlt] at h
        injection h with h
        subst h
        obtain ⟨l₁, l₂, hsplit, hpre, hall⟩ := ih m' hm
        refine ⟨[], xs, rfl, by simp, ?_⟩
        intro a ha
        rcases List.mem_cons.mp ha with rfl | ha
        · exact le_refl _
        · exact le_trans (hall a ha) (not_lt.mp hlt)

/-- Folding from an already-chosen element `b` behaves like comparing `b`
with the first argmax of the remaining passing elements. -/
theorem selectBest_go (xs : List α) (b : α) :
    xs.foldl (selectStep f P) (some b)
      = match firstArgmax f (xs.filter P) with
        | none => some b
        | some m => if f b < f m then some m else some b := by
  induction xs generalizing b with
  | nil => simp [firstArgmax]
  | cons x xs ih =>
    by_cases hP : P x
    · have hstep : selectStep f P (some b) x
          = if f b < f x then some x else some b := by
        simp [selectStep, hP]
      rw [List.foldl_cons, hstep, List.filter_cons_of_pos hP, firstArgmax_cons]
      by_cases hbx : f b < f x
      · rw [if_pos hbx, ih x]
        cases hm : firstArgmax f (xs.filter P) with
        | none => dsimp only; rw [if_pos hbx]
        | some m =>
          dsimp only
          by_cases hxm : f x < f m
          · rw [if_pos hxm]
            dsimp only
            rw [if_pos (lt_trans hbx hxm)]
          · rw [if_neg hxm]
            dsimp only
            rw [if_pos hbx]
      · rw [if_neg hbx, ih b]
        cases hm : firstArgmax f (xs.filter P) with
        | none => dsimp only; rw [if_neg hbx]
        | some m =>
          dsimp only
          by_cases hxm : f x < f m
          · rw [if_pos hxm]
          · have hmb : f m ≤ f b := le_trans (not_lt.mp hxm) (not_lt.mp hbx)
            rw [if_neg hxm]
            dsimp only
            rw [if_neg hbx, if_neg (not_lt.mpr hmb)]
    · have hP' : P x = false := by simp [hP]
      rw [List.foldl_cons, List.filter_cons_of_neg hP]
      have hstep : selectStep f P (some b) x = some b := by
        simp [selectStep, hP']
      rw [hstep, ih b]

/-- The selection loop computes exactly the first argmax of the passing
elements. -/
theorem selectBest_eq_firstArgmax (xs : List α) :
    selectBest f P xs = firstArgmax f (xs.filter P) := by
  induction xs with
  | nil => rfl
  | cons x xs ih =>
    rw [selectBest, List.foldl_cons]
    by_cases hP : P x
    · have hstep : selectStep f P none x = some x := by simp [selectStep, hP]
      rw [hstep, selectBest_go, List.filter_cons_of_pos hP, firstArgmax_cons]
    · have hstep : selectStep f P none x = none := by simp [selectStep, hP]
      rw [hstep, List.filter_cons_of_neg hP]
      exact ih

end SelectBestLemmas

section UtilFoldLemmas

variable {α : Type _} (f : α → ℚ) (P : α → Bool)

theorem utilFold_go (xs : List α) : ∀ (u0 : ℚ) (b0 : Option α),
    (xs.foldl (utilStep f P) (u0, b0) = (u0, b0)
      ∨ ∃ m, m ∈ xs ∧ P m = true ∧ xs.foldl (utilStep f P) (u0, b0) = (f m, some m)
          ∧ u0 < f m)
    ∧ (∀ x ∈ xs, P x = true → f x ≤ (xs.foldl (utilStep f P) (u0, b0)).1)
    ∧ u0 ≤ (xs.foldl (utilStep f P) (u0, b0)).1 := by
  induction xs with
  | nil => exact fun u0 b0 => ⟨Or.inl rfl, by simp, le_refl _⟩
  | cons x xs ih =>
    intro u0 b0
    rw [List.foldl_cons]
    by_cases hP : P x
    · by_cases hlt : u0 < f x
      · have hstep : utilStep f P (u0, b0) x = (f x, some x) := by
          simp [utilStep, hP, hlt]
        rw [hstep]
        obtain ⟨hd, hbound, hmono⟩ := ih (f x) (some x)
        refine ⟨?_, ?_, le_trans (le_of_lt hlt) hmono⟩
        · rcases hd with heq | ⟨m, hmem, hPm, heq, hfm⟩
          · exact Or.inr ⟨x, List.mem_cons_self x xs, hP, heq, hlt⟩
          · exact Or.inr ⟨m, List.mem_cons_of_mem x hmem, hPm, heq, lt_trans hlt hfm⟩
        · intro y hy hPy
          rcases List.mem_cons.mp hy with rfl | hy
          · exact hmono
          · exact hbound y hy hPy
      · have hstep : utilStep f P (u0, b0) x = (u0, b0) := by
          simp [utilStep, hP, hlt]
        rw [hstep]
        obtain ⟨hd, hbound, hmono⟩ := ih u0 b0
        refine ⟨?_, ?_, hmono⟩
        · rcases hd with heq | ⟨m, hmem, hPm, heq, hfm⟩
          · exact Or.inl heq
          · exact Or.inr ⟨m, List.mem_cons_of_mem x hmem, hPm, heq, hfm⟩
        · intro y hy hPy
          rcases List.mem_cons.mp hy with rfl | hy
          · exact le_trans (not_lt.mp hlt) hmono
          · exact hbound y hy hPy
    · have hstep : utilStep f P (u0, b0) x = (u0, b0) := by
        simp [utilStep, hP]
      rw [hstep]
      obtain ⟨hd, hbound, hmono⟩ := ih u0 b0
      refine ⟨?_, ?_, hmono⟩
      · rcases hd with heq | ⟨m, hmem, hPm, heq, hfm⟩
        · exact Or.inl heq
        · exact Or.inr ⟨m, List.mem_cons_of_mem x hmem, hPm, heq, hfm⟩
      · intro y hy hPy
        rcases List.mem_cons.mp hy with rfl | hy
        · exact absurd hPy (by simp [hP])
        · exact hbound y hy hPy

/-- A winner of the comparator loop is a passing trial with positive
utilization that no passing trial strictly beats. -/
theorem utilFold_spec (xs : List α) (m : α) (h : (utilFold f P xs).2 = some m) :
    m ∈ xs ∧ P m = true ∧ (utilFold f P xs).1 = f m ∧ 0 < f m
      ∧ ∀ x ∈ xs, P x = true → f x ≤ f m := by
  obtain ⟨hd, hbound, _⟩ := utilFold_go f P xs 0 none
  rcases hd with heq | ⟨m', hmem, hPm, heq, hfm⟩
  · rw [utilFold, heq] at h
    exact absurd h (by simp)
  · rw [utilFold, heq] at h
    injection h with h
    subst h
    refine ⟨hmem, hPm, by rw [utilFold, heq], hfm, ?_⟩
    intro x hx hPx
    have := hbound x hx hPx
    rwa [heq] at this

end UtilFoldLemmas

section NumericEvalHelpers

/-- Evaluate `jsRound` at a concrete rational. -/
theorem jsRound_evalInt (q : ℚ) (z : ℤ) (h1 : (z:ℚ) ≤ q + 1/2) (h2 : q + 1/2 < (z:ℚ) + 1) :
    jsRound q = z := by
  unfold jsRound
  rw [Int.floor_eq_iff]
  exact ⟨h1, by exact_mod_cast h2⟩

/-- Evaluate `Int.ceil` at a concrete rational. -/
theorem int_ceil_eval (q : ℚ) (z : ℤ) (h1 : (z:ℚ) - 1 < q) (h2 : q ≤ (z:ℚ)) :
    ⌈q⌉ = z := by
  rw [Int.ceil_eq_iff]
  exact ⟨h1, h2⟩

/-- `Math.round(n * 0.5)` as a natural-number division. -/
theorem jsRound_half (n : ℕ) : jsRound ((n:ℚ) * (1/2)) = ((n+1)/2 : ℕ) := by
  obtain ⟨k, hk⟩ : ∃ k, (n+1)/2 = k := ⟨_, rfl⟩
  rw [hk]
  have h1 : 2 * k ≤ n + 1 := by omega
  have h2 : n < 2 * k + 1 := by omega
  apply jsRound_evalInt
  · have : (2 * k : ℚ) ≤ (n : ℚ) + 1 := by exact_mod_cast h1
    push_cast
    linarith
  · have : (n : ℚ) < 2 * k + 1 := by exact_mod_cast h2
    push_cast
    linarith

/-- `Math.ceil(n * 2)` is exact. -/
theorem ceil_nat_mul_two (n : ℕ) : ⌈(n:ℚ) * 2⌉ = ((2 * n : ℕ) : ℤ) := by
  rw [show ((n:ℚ) * 2) = (((2*n : ℕ) : ℤ) : ℚ) by push_cast; ring]
  exact Int.ceil_intCast _

/-- `Math.ceil(n * 0.25)` as a natural-number division. -/
theorem ceil_nat_quarter (n : ℕ) : ⌈(n:ℚ) * (1/4)⌉ = (((n+3)/4 : ℕ) : ℤ) := by
  obtain ⟨k, hk⟩ : ∃ k, (n+3)/4 = k := ⟨_, rfl⟩
  rw [hk]
  have h1 : n ≤ 4 * k := by omega
  have h2 : 4 * k ≤ n + 3 := by omega
  apply int_ceil_eval
  · have : (4 * k : ℚ) ≤ (n : ℚ) + 3 := by exact_mod_cast h2
    push_cast
    linarith
  · have : (n : ℚ) ≤ 4 * k := by exact_mod_cast h1
    push_cast
    linarith

end NumericEvalHelpers

section EnumEvalHelpers

@[simp] theorem UnitType.beq_tt : (UnitType.twoBed == UnitType.twoBed) = true := rfl
@[simp] theorem UnitType.beq_tth : (UnitType.twoBed == UnitType.threeBed) = false := rfl
@[simp] theorem UnitType.beq_tf : (UnitType.twoBed == UnitType.fourBed) = false := rfl
@[simp] theorem UnitType.beq_tht : (UnitType.threeBed == UnitType.twoBed) = false := rfl
@[simp] theorem UnitType.beq_thth : (UnitType.threeBed == UnitType.threeBed) = true := rfl
@[simp] theorem UnitType.beq_thf : (UnitType.threeBed == UnitType.fourBed) = false := rfl
@[simp] theorem UnitType.beq_ft : (UnitType.fourBed == UnitType.twoBed) = false := rfl
@[simp] theorem UnitType.beq_fth : (UnitType.fourBed == UnitType.threeBed) = false := rfl
@[simp] theorem UnitType.beq_ff : (UnitType.fourBed == UnitType.fourBed) = true := rfl

theorem ite_standard_battleAxe {α : Type _} (a b : α) :
    (if SiteLayout.standard = SiteLayout.battleAxe then a else b) = b := if_neg (by decide)

theorem ite_wideFrontage_battleAxe {α : Type _} (a b : α) :
    (if SiteLayout.wideFrontage = SiteLayout.battleAxe then a else b) = b := if_neg (by decide)

end EnumEvalHelpers

section RuleProjections

theorem R20_label : R20.label = "R20" := rfl
theorem R20_maxPlotRatio : R20.maxPlotRatio = 1/2 := rfl
theorem R20_maxSiteCoverage : R20.maxSiteCoverage = 1/2 := rfl
theorem R20_minOpenSpace : R20.minOpenSpace = 1/2 := rfl
theorem R20_minLotSize : R20.minLotSize = 350 := rfl

/-- Parking for an `R20` lot, with the ceilings computed in closed form. -/
theorem parkingOfRule_R20 (n : ℕ) :
    parkingOfRule n R20
      = ⟨((2*n : ℕ) : ℤ), (((n+3)/4 : ℕ) : ℤ),
         ((2*n : ℕ) : ℤ) + (((n+3)/4 : ℕ) : ℤ),
         ((((2*n : ℕ) : ℤ) + (((n+3)/4 : ℕ) : ℤ) : ℤ) : ℚ) * 18⟩ := by
  simp only [parkingOfRule,
    show R20.parkingPerDwelling = 2 from rfl,
    show R20.visitorParkingRatio = (1/4 : ℚ) from rfl]
  rw [ceil_nat_mul_two, ceil_nat_quarter]

theorem calcPark_R20 (n : ℕ) :
    calculateParkingRequirements n "R20" = some (parkingOfRule n R20) := by
  simp [calculateParkingRequirements, getRCodeRules]

end RuleProjections

section CountsLemmas

theorem ratioTypes_BA : ratioTypes ⟨1/2, 1/2, 0⟩ = [.twoBed, .threeBed] := by
  simp [ratioTypes, typeOrder, ScenarioRatios.get]

/-- The per-trial counts of the 'Balanced Affordable' ratios, in closed
form. -/
theorem countsFor_BA (t : ℕ) (ht : 2 ≤ t) :
    countsFor ⟨1/2, 1/2, 0⟩ t = ⟨(t+1)/2, t - (t+1)/2, 0⟩ := by
  have hassign : assignCounts ⟨1/2, 1/2, 0⟩ t (ratioTypes ⟨1/2, 1/2, 0⟩) 0
      = [(UnitType.twoBed, (((t+1)/2 : ℕ) : ℤ)),
         (UnitType.threeBed, (t:ℤ) - (0 + (((t+1)/2 : ℕ) : ℤ)))] := by
    rw [ratioTypes_BA]
    simp only [assignCounts, ScenarioRatios.get, jsRound_half]
  have hs1 : ((((t+1)/2 : ℕ) : ℤ) ⊔ 1) = (((t+1)/2 : ℕ) : ℤ) := by
    rw [sup_eq_left]
    omega
  have hs2 : (((t:ℤ) - (0 + (((t+1)/2 : ℕ) : ℤ))) ⊔ 1) = (t:ℤ) - (0 + (((t+1)/2 : ℕ) : ℤ)) := by
    rw [sup_eq_left]
    omega
  simp only [countsFor, hassign, List.lookup, UnitType.beq_tt, UnitType.beq_tht,
    UnitType.beq_thth, UnitType.beq_ft, UnitType.beq_fth]
  simp only [Mix.mk.injEq]
  refine ⟨?_, ?_, ?_⟩
  · rw [hs1, Int.toNat_natCast]
  · rw [hs2, zero_add, Int.toNat_sub]
  · trivial

end CountsLemmas

section YieldStructure

set_option maxRecDepth 4000 in
/-- `optimizeYield` on a known code: the result is the selection loop's
winner over the evaluated enumeration, or the single-2-bed fallback. -/
theorem optimizeYield_some (params : Property) (rules : CodeRule)
    (h : getRCodeRules params.rCode = some rules) :
    optimizeYield params = some
      { config :=
          match selectBest (fun e => e.estimatedRevenue) (fun e => e.compliant)
              (yieldEvals params rules) with
          | some b => b
          | none => evaluateMix ⟨1, 0, 0⟩ params.lotArea params.lotWidth params.lotDepth
              rules (determineSiteLayout params.lotWidth params.lotDepth)
              (envelopeOfRule params.lotWidth params.lotDepth rules)
        layout := determineSiteLayout params.lotWidth params.lotDepth
        rCode := params.rCode
        rules := rules } := by
  have hfold : (yieldMixes params.lotWidth rules).foldl
      (fun best mix =>
        let result := evaluateMix mix params.lotArea params.lotWidth params.lotDepth
          rules (determineSiteLayout params.lotWidth params.lotDepth)
          (envelopeOfRule params.lotWidth params.lotDepth rules)
        if result.compliant then
          match best with
          | none => some result
          | some b => if b.estimatedRevenue < result.estimatedRevenue then some result else some b
        else best) none
      = selectBest (fun e => e.estimatedRevenue) (fun e => e.compliant)
          (yieldEvals params rules) := by
    rw [selectBest, yieldEvals, List.foldl_map]
    congr 1
    funext best mix
    simp only [selectStep]
    cases best <;> rfl
  simp only [optimizeYield, h]
  rw [hfold]

/-- Every enumerated mix has between 1 and 20 units and a 4-bed count at
most `⌊0.3 · total⌋`. -/
theorem yieldMixes_bounds (lotWidth : ℚ) (rules : CodeRule) :
    ∀ m ∈ yieldMixes lotWidth rules,
      1 ≤ m.twoBed + m.threeBed + m.fourBed
      ∧ m.twoBed + m.threeBed + m.fourBed ≤ 20
      ∧ m.fourBed ≤ 3 * (m.twoBed + m.threeBed + m.fourBed) / 10 := by
  intro m hm
  rw [yieldMixes, List.mem_flatMap] at hm
  obtain ⟨k, hk, hm⟩ := hm
  rw [List.mem_range] at hk
  rw [generateMixes, List.mem_flatMap] at hm
  obtain ⟨fourBed, hf, hm⟩ := hm
  rw [List.mem_range] at hf
  rw [List.mem_map] at hm
  obtain ⟨threeBed, hth, rfl⟩ := hm
  rw [List.mem_range] at hth
  simp only
  omega

/-- Every evaluated configuration of the enumeration is an `evaluateMix`
of an enumerated mix, and carries that mix in its `mix` field. -/
theorem yieldEvals_mem (params : Property) (rules : CodeRule) :
    ∀ e ∈ yieldEvals params rules,
      ∃ m ∈ yieldMixes params.lotWidth rules,
        e = evaluateMix m params.lotArea params.lotWidth params.lotDepth rules
          (determineSiteLayout params.lotWidth params.lotDepth)
          (envelopeOfRule params.lotWidth params.lotDepth rules) := by
  intro e he
  rw [yieldEvals, List.mem_map] at he
  obtain ⟨m, hm, rfl⟩ := he
  exact ⟨m, hm, rfl⟩

/-- A compliant evaluation satisfies the three ratio constraints of its
rule. -/
theorem evaluateMix_compliant_spec (mix : Mix) (lotArea lotWidth lotDepth : ℚ)
    (rules : CodeRule) (layout : SiteLayout) (envelope : Envelope)
    (h : (evaluateMix mix lotArea lotWidth lotDepth rules layout envelope).compliant = true) :
    (evaluateMix mix lotArea lotWidth lotDepth rules layout envelope).plotRatio
        ≤ rules.maxPlotRatio
    ∧ (evaluateMix mix lotArea lotWidth lotDepth rules layout envelope).siteCoverageRatio
        ≤ rules.maxSiteCoverage
    ∧ (evaluateMix mix lotArea lotWidth lotDepth rules layout envelope).openSpaceRatio
        ≥ rules.minOpenSpace := by
  by_cases h0 : mix.twoBed + mix.threeBed + mix.fourBed = 0
  · exfalso
    simp only [evaluateMix, if_pos h0] at h
    exact absurd h (by simp)
  · simp only [evaluateMix, if_neg h0] at h ⊢
    simp only [Bool.and_eq_true, decide_eq_true_eq] at h
    exact ⟨h.1.1, h.1.2, h.2⟩

/-- The revenue of a nonempty evaluation is priced from the fixed
reference table. -/
theorem evaluateMix_revenue (mix : Mix) (lotArea lotWidth lotDepth : ℚ)
    (rules : CodeRule) (layout : SiteLayout) (envelope : Envelope)
    (h0 : mix.twoBed + mix.threeBed + mix.fourBed ≠ 0) :
    (evaluateMix mix lotArea lotWidth lotDepth rules layout envelope).estimatedRevenue
      = (mix.twoBed : ℚ) * 450000 + (mix.threeBed : ℚ) * 620000 + (mix.fourBed : ℚ) * 780000
    ∧ (evaluateMix mix lotArea lotWidth lotDepth rules layout envelope).mix = mix := by
  simp only [evaluateMix, if_neg h0]
  exact ⟨trivial, trivial⟩

end YieldStructure

section ComparatorStructure

/-- Variant 1's loop is the utilization fold over its trials. -/
theorem calculateMixedConfigV1_eq (maxFootprint maxGFA : ℚ)
    (templates : UnitType → UnitTemplate) (ratios : ScenarioRatios) :
    MixedScenarioV1.calculateMixedConfig maxFootprint maxGFA templates ratios
      = ((utilFold (fun c => c.utilization) (MixedScenarioV1.passes maxFootprint maxGFA)
          (MixedScenarioV1.candidates maxGFA templates ratios)).2).map
            MixedScenarioV1.Cand.toConfig := rfl

/-- Variant 2's loop is the utilization fold over its trials. -/
theorem calculateMixedConfigV2_eq (lotArea lotWidth lotDepth : ℚ) (rules : CodeRule)
    (templates : UnitType → UnitTemplate) (ratios : ScenarioRatios) :
    MixedScenarioV2.calculateMixedConfig lotArea lotWidth lotDepth rules templates ratios
      = ((utilFold (fun c => c.utilization) (MixedScenarioV2.passes rules)
          (MixedScenarioV2.candidates lotArea lotWidth lotDepth rules templates ratios)).2).map
            MixedScenarioV2.Cand.toConfig := rfl

/-- Unpack membership in variant 2's generator output. -/
theorem generateMixedScenariosV2_mem (property : Property)
    (constraints : Option MixedScenarioV1.Constraints) (marketData : Option Prices)
    (rules : CodeRule) (h : getRCodeRules property.rCode = some rules)
    (s : MixedScenarioV2.Scenario)
    (hs : s ∈ MixedScenarioV2.generateMixedScenarios property constraints marketData) :
    ∃ sd ∈ SCENARIO_DEFINITIONS, ∃ config,
      MixedScenarioV2.calculateMixedConfig property.lotArea property.lotWidth
        property.lotDepth rules UNIT_TEMPLATES sd.ratios = some config
      ∧ s = MixedScenarioV2.createScenario sd config (marketData.getD defaultPrices) := by
  rw [MixedScenarioV2.generateMixedScenarios, h] at hs
  rw [List.mem_filterMap] at hs
  obtain ⟨sd, hsd, hmap⟩ := hs
  rw [Option.map_eq_some'] at hmap
  obtain ⟨config, hconfig, rfl⟩ := hmap
  exact ⟨sd, hsd, config, hconfig, rfl⟩

/-- Unpack membership in variant 1's generator output (default
constraints). -/
theorem generateMixedScenariosV1_mem (property : Property) (marketData : Option Prices)
    (buildable : BuildableArea)
    (h : calculateBuildableArea property.lotArea property.rCode = some buildable)
    (s : MixedScenarioV1.Scenario)
    (hs : s ∈ MixedScenarioV1.generateMixedScenarios property none marketData) :
    ∃ sd ∈ SCENARIO_DEFINITIONS, ∃ config,
      MixedScenarioV1.calculateMixedConfig buildable.maxSiteCoverage buildable.maxGFA
        UNIT_TEMPLATES sd.ratios = some config
      ∧ s = MixedScenarioV1.createScenario sd config (marketData.getD defaultPrices)
            property.lotArea := by
  rw [MixedScenarioV1.generateMixedScenarios, h] at hs
  rw [List.mem_filterMap] at hs
  obtain ⟨sd, hsd, hmap⟩ := hs
  rw [Option.map_eq_some'] at hmap
  obtain ⟨config, hconfig, rfl⟩ := hmap
  exact ⟨sd, hsd, config, hconfig, rfl⟩

end ComparatorStructure

section ClaimC5

/-- C5: for lot width 2 and depth 3 under the R20 rule (side setback 1.5,
primary-street setback 6, rear setback 6), `calculateBuildableEnvelope`
reports `effectiveWidth = 0` and `effectiveDepth = 0` (the raw dimensions
−1 and −9 each clamped to 0), yet `envelopeArea = 9`, the product of the
un-clamped raw values. -/
theorem C5_degenerate_envelope :
    ∃ env, calculateBuildableEnvelope 2 3 "R20" = some env
      ∧ env.effectiveWidth = 0 ∧ env.effectiveDepth = 0
      ∧ 2 - R20.setbacks.side * 2 = (-1 : ℚ)
      ∧ 3 - R20.setbacks.primaryStreet - R20.setbacks.rear = (-9 : ℚ)
      ∧ env.envelopeArea = 9 ∧ env.envelopeArea = (-1 : ℚ) * (-9) := by
  refine ⟨envelopeOfRule 2 3 R20, by simp [calculateBuildableEnvelope, getRCodeRules],
    ?_, ?_, by norm_num [R20], by norm_num [R20], ?_, ?_⟩ <;>
    norm_num [envelopeOfRule, R20, max_def]

end ClaimC5

section ClaimC4

/-- C4 counterexample: at width 2, depth 3 under R20 the reported clamped
dimensions are both 0, so clamping each dimension *before* multiplying
would give area 0; the code returns 9 instead, because it clamps only the
product.  This refutes the claim that `envelopeArea` is the product of
the individually clamped dimensions. -/
theorem C4_counterexample :
    ∃ env, calculateBuildableEnvelope 2 3 "R20" = some env
      ∧ env.effectiveWidth = 0 ∧ env.effectiveDepth = 0
      ∧ env.envelopeArea = 9
      ∧ env.envelopeArea ≠ env.effectiveWidth * env.effectiveDepth := by
  refine ⟨envelopeOfRule 2 3 R20, by simp [calculateBuildableEnvelope, getRCodeRules],
    ?_, ?_, ?_, ?_⟩ <;>
    norm_num [envelopeOfRule, R20, max_def]

/-- C4 amended: for every lot width, depth and known code,
`calculateBuildableEnvelope` clamps each *reported* effective dimension to
≥ 0 individually, but computes `envelopeArea` as the clamp to ≥ 0 of the
product of the two *un-clamped* raw dimensions. -/
theorem C4_envelope_clamping (lotWidth lotDepth : ℚ) (code : String) (rules : CodeRule)
    (h : getRCodeRules code = some rules) :
    ∃ env, calculateBuildableEnvelope lotWidth lotDepth code = some env
      ∧ env.effectiveWidth = max 0 (lotWidth - rules.setbacks.side * 2)
      ∧ env.effectiveDepth = max 0 (lotDepth - rules.setbacks.primaryStreet - rules.setbacks.rear)
      ∧ env.envelopeArea
          = max 0 ((lotWidth - rules.setbacks.side * 2)
              * (lotDepth - rules.setbacks.primaryStreet - rules.setbacks.rear)) := by
  exact ⟨envelopeOfRule lotWidth lotDepth rules,
    by simp [calculateBuildableEnvelope, h], rfl, rfl, rfl⟩

/-- Witness for `C4_envelope_clamping` at a concrete input. -/
theorem C4_envelope_clamping_witness :
    getRCodeRules "R30" = some R30
    ∧ (∃ env, calculateBuildableEnvelope 20 40 "R30" = some env
        ∧ env.effectiveWidth = max 0 (20 - R30.setbacks.side * 2)
        ∧ env.effectiveDepth = max 0 (40 - R30.setbacks.primaryStreet - R30.setbacks.rear)
        ∧ env.envelopeArea
            = max 0 ((20 - R30.setbacks.side * 2)
                * (40 - R30.setbacks.primaryStreet - R30.setbacks.rear))) :=
  ⟨rfl, C4_envelope_clamping 20 40 "R30" R30 rfl⟩

end ClaimC4

section ClaimC7

/-- C7: for every lot area and known code, `calculateBuildableArea`
returns `lotArea × maxSiteCoverage`, `lotArea × maxPlotRatio × maxStories`,
`lotArea × minOpenSpace` and `lotArea − minOpenSpaceArea`; in particular
for lot area 800 under R60 it returns 520, 1680, 320 and 480. -/
theorem C7_buildable_area (lotArea : ℚ) (code : String) (rules : CodeRule)
    (h : getRCodeRules code = some rules) :
    (∃ b, calculateBuildableArea lotArea code = some b
      ∧ b.maxSiteCoverage = lotArea * rules.maxSiteCoverage
      ∧ b.maxGFA = lotArea * rules.maxPlotRatio * rules.maxStories
      ∧ b.minOpenSpaceArea = lotArea * rules.minOpenSpace
      ∧ b.usableBuildArea = lotArea - lotArea * rules.minOpenSpace)
    ∧ (∃ b, calculateBuildableArea 800 "R60" = some b
      ∧ b.maxSiteCoverage = 520 ∧ b.maxGFA = 1680
      ∧ b.minOpenSpaceArea = 320 ∧ b.usableBuildArea = 480) := by
  constructor
  · exact ⟨buildableAreaOfRule lotArea rules,
      by simp [calculateBuildableArea, h], rfl, rfl, rfl, rfl⟩
  · refine ⟨buildableAreaOfRule 800 R60,
      by simp [calculateBuildableArea, getRCodeRules], ?_, ?_, ?_, ?_⟩ <;>
      norm_num [buildableAreaOfRule, R60]

/-- Witness for `C7_buildable_area` at a concrete input. -/
theorem C7_buildable_area_witness :
    getRCodeRules "R60" = some R60
    ∧ ((∃ b, calculateBuildableArea 800 "R60" = some b
        ∧ b.maxSiteCoverage = 800 * R60.maxSiteCoverage
        ∧ b.maxGFA = 800 * R60.maxPlotRatio * R60.maxStories
        ∧ b.minOpenSpaceArea = 800 * R60.minOpenSpace
        ∧ b.usableBuildArea = 800 - 800 * R60.minOpenSpace)
      ∧ (∃ b, calculateBuildableArea 800 "R60" = some b
        ∧ b.maxSiteCoverage = 520 ∧ b.maxGFA = 1680
        ∧ b.minOpenSpaceArea = 320 ∧ b.usableBuildArea = 480)) :=
  ⟨rfl, C7_buildable_area 800 "R60" R60 rfl⟩

end ClaimC7

section ClaimC8

/-- C8: every rule of the repository has positive `minLotSize`,
`maxPlotRatio` in (0,1], positive `minOpenSpace` and positive
`maxSiteCoverage`; and along the density order R20, R30, R40, R60, R80
the `minLotSize` strictly decreases while `maxPlotRatio` never
decreases. -/
theorem C8_rule_invariants :
    (∀ r ∈ allRules, 0 < r.minLotSize ∧ 0 < r.maxPlotRatio ∧ r.maxPlotRatio ≤ 1
      ∧ 0 < r.minOpenSpace ∧ 0 < r.maxSiteCoverage)
    ∧ allRules = [R20, R30, R40, R60, R80]
    ∧ List.Chain' (fun a b : CodeRule => b.minLotSize < a.minLotSize) allRules
    ∧ List.Chain' (fun a b : CodeRule => a.maxPlotRatio ≤ b.maxPlotRatio) allRules := by
  refine ⟨?_, rfl, ?_, ?_⟩
  · intro r hr
    simp only [allRules, List.mem_cons, List.not_mem_nil, or_false] at hr
    rcases hr with rfl | rfl | rfl | rfl | rfl <;>
      refine ⟨by norm_num [R20, R30, R40, R60, R80], by norm_num [R20, R30, R40, R60, R80],
        by norm_num [R20, R30, R40, R60, R80], by norm_num [R20, R30, R40, R60, R80],
        by norm_num [R20, R30, R40, R60, R80]⟩
  · norm_num [allRules, List.chain'_cons, R20, R30, R40, R60, R80]
  · norm_num [allRules, List.chain'_cons, R20, R30, R40, R60, R80]

end ClaimC8

section ClaimC6

/-- C6 counterexample: the code string `"constructor"` is unrecognized — it
is none of the five repository codes — yet the JS lookup
`R_CODE_RULES[rCode] || null` walks the prototype chain, finds the inherited
truthy `Object.prototype.constructor`, and returns that non-rule value
instead of `null`; downstream, `calculateBuildableArea` and
`calculateParkingRequirements` then build `NaN`-valued records and
`calculateBuildableEnvelope` (hence `optimizeYield`) throws a `TypeError`
destructuring `rules.setbacks`. So the original claim — null sentinel,
no exception, for **every** unrecognized code string — fails. -/
theorem C6_counterexample :
    "constructor" ∉ getAllRCodes
    ∧ getRCodeRulesJs "constructor" = RuleLookup.inherited
    ∧ getRCodeRulesJs "constructor" ≠ RuleLookup.nullSentinel := by
  refine ⟨by decide, by decide, by decide⟩

/-- C6 amended: for every code string on which the `R_CODE_RULES` lookup
genuinely yields `null` — every unrecognized, empty, or missing code string
other than the property names inherited from `Object.prototype` (for those,
`getRCodeRulesJs` returns the truthy `inherited` outcome and the calculators
return `NaN`-valued records or throw, see `C6_counterexample`) — the rule
lookup and all three calculators return the `none` sentinel, `optimizeYield`
returns `none` immediately, and both comparator variants return the empty
list; on this domain all of these are total functions, so none can throw. -/
theorem C6_unknown_code (code : String)
    (h : getRCodeRulesJs code = RuleLookup.nullSentinel)
    (lotArea lotWidth lotDepth : ℚ) (numDwellings : ℕ)
    (constraints : Option MixedScenarioV1.Constraints) (marketData : Option Prices) :
    getRCodeRules code = none
    ∧ calculateBuildableArea lotArea code = none
    ∧ calculateBuildableEnvelope lotWidth lotDepth code = none
    ∧ calculateParkingRequirements numDwellings code = none
    ∧ optimizeYield ⟨lotArea, lotWidth, lotDepth, code⟩ = none
    ∧ MixedScenarioV1.generateMixedScenarios ⟨lotArea, lotWidth, lotDepth, code⟩
        constraints marketData = []
    ∧ MixedScenarioV2.generateMixedScenarios ⟨lotArea, lotWidth, lotDepth, code⟩
        constraints marketData = [] := by
  have hnone : getRCodeRules code = none := getRCodeRules_eq_none_of_js code h
  refine ⟨hnone, ?_, ?_, ?_, ?_, ?_, ?_⟩
  · simp [calculateBuildableArea, hnone]
  · simp [calculateBuildableEnvelope, hnone]
  · simp [calculateParkingRequirements, hnone]
  · simp [optimizeYield, hnone]
  · simp [MixedScenarioV1.generateMixedScenarios, calculateBuildableArea, hnone]
  · simp [MixedScenarioV2.generateMixedScenarios, hnone]

/-- Witness for `C6_unknown_code` at the concrete unknown code `"R99"`,
which is neither a repository key nor an `Object.prototype` property name. -/
theorem C6_unknown_code_witness :
    getRCodeRulesJs "R99" = RuleLookup.nullSentinel
    ∧ (getRCodeRules "R99" = none
      ∧ calculateBuildableArea 800 "R99" = none
      ∧ calculateBuildableEnvelope 20 40 "R99" = none
      ∧ calculateParkingRequirements 3 "R99" = none
      ∧ optimizeYield ⟨800, 20, 40, "R99"⟩ = none
      ∧ MixedScenarioV1.generateMixedScenarios ⟨800, 20, 40, "R99"⟩ none none = []
      ∧ MixedScenarioV2.generateMixedScenarios ⟨800, 20, 40, "R99"⟩ none none = []) :=
  ⟨by decide, C6_unknown_code "R99" (by decide) 800 20 40 3 none none⟩

end ClaimC6

section CountsProperties

/-- The assignment loop produces exactly one entry per processed type, in
order. -/
theorem assignCounts_keys (r : ScenarioRatios) (tt : ℕ) :
    ∀ (ts : List UnitType) (a : ℤ), (assignCounts r tt ts a).map Prod.fst = ts := by
  intro ts
  induction ts with
  | nil => intro a; rfl
  | cons t rest ih =>
    intro a
    cases rest with
    | nil => rfl
    | cons u rest' => simp [assignCounts, ih]

theorem lookup_eq_none_of_not_mem (u : UnitType) :
    ∀ (l : List (UnitType × ℤ)), u ∉ l.map Prod.fst → l.lookup u = none := by
  intro l
  induction l with
  | nil => intro; rfl
  | cons kv rest ih =>
    intro h
    simp only [List.map_cons, List.mem_cons, not_or] at h
    have hne : (u == kv.1) = false := beq_eq_false_iff_ne.mpr h.1
    simpa [List.lookup, hne] using ih h.2

theorem lookup_isSome_of_mem (u : UnitType) :
    ∀ (l : List (UnitType × ℤ)), u ∈ l.map Prod.fst → ∃ c, l.lookup u = some c := by
  intro l
  induction l with
  | nil => intro h; exact absurd h (by simp)
  | cons kv rest ih =>
    intro h
    by_cases he : u = kv.1
    · exact ⟨kv.2, by simp [List.lookup, beq_iff_eq, he]⟩
    · have hne : (u == kv.1) = false := beq_eq_false_iff_ne.mpr he
      simp only [List.map_cons, List.mem_cons] at h
      rcases h with h | h
      · exact absurd h he
      · simpa [List.lookup, hne] using ih h

/-- Membership in the positive-ratio type list. -/
theorem mem_ratioTypes (r : ScenarioRatios) (u : UnitType) :
    u ∈ ratioTypes r ↔ 0 < r.get u := by
  rw [ratioTypes, List.mem_filter]
  cases u <;> simp [typeOrder]

/-- The per-type count as a lookup in the assignment list. -/
theorem countsFor_count (r : ScenarioRatios) (t : ℕ) (u : UnitType) :
    (countsFor r t).count u
      = match (assignCounts r t (ratioTypes r) 0).lookup u with
        | some c => (max c 1).toNat
        | none => 0 := by
  cases u <;> rfl

/-- A type with no positive target ratio never appears in a scenario
mix. -/
theorem countsFor_zero (r : ScenarioRatios) (t : ℕ) (u : UnitType)
    (h : ¬ 0 < r.get u) : (countsFor r t).count u = 0 := by
  have hmem : u ∉ (assignCounts r t (ratioTypes r) 0).map Prod.fst := by
    rw [assignCounts_keys, mem_ratioTypes]
    exact h
  rw [countsFor_count, lookup_eq_none_of_not_mem u _ hmem]

/-- A type with a positive target ratio gets at least one unit. -/
theorem countsFor_pos (r : ScenarioRatios) (t : ℕ) (u : UnitType)
    (h : 0 < r.get u) : 1 ≤ (countsFor r t).count u := by
  have hmem : u ∈ (assignCounts r t (ratioTypes r) 0).map Prod.fst := by
    rw [assignCounts_keys, mem_ratioTypes]
    exact h
  obtain ⟨c, hc⟩ := lookup_isSome_of_mem u _ hmem
  rw [countsFor_count, hc]
  have h1 : (1:ℤ) ≤ max c 1 := le_max_right c 1
  have h0 : (0:ℤ) ≤ max c 1 := le_trans (by norm_num) h1
  exact (Int.le_toNat h0).mpr h1

end CountsProperties

section ClaimC10

/-- Unpack membership in variant 1's generator output, for arbitrary
constraint overrides. -/
theorem generateMixedScenariosV1_mem' (property : Property)
    (constraints : Option MixedScenarioV1.Constraints) (marketData : Option Prices)
    (s : MixedScenarioV1.Scenario)
    (hs : s ∈ MixedScenarioV1.generateMixedScenarios property constraints marketData) :
    ∃ sd ∈ SCENARIO_DEFINITIONS, ∃ config maxFootprint maxGFA,
      MixedScenarioV1.calculateMixedConfig maxFootprint maxGFA UNIT_TEMPLATES sd.ratios
        = some config
      ∧ s = MixedScenarioV1.createScenario sd config (marketData.getD defaultPrices)
          property.lotArea := by
  rw [MixedScenarioV1.generateMixedScenarios] at hs
  cases hb : calculateBuildableArea property.lotArea property.rCode with
  | none => rw [hb] at hs; exact absurd hs (by simp)
  | some buildable =>
    rw [hb] at hs
    rw [List.mem_filterMap] at hs
    obtain ⟨sd, hsd, hmap⟩ := hs
    rw [Option.map_eq_some'] at hmap
    obtain ⟨config, hconfig, rfl⟩ := hmap
    exact ⟨sd, hsd, config, _, _, hconfig, rfl⟩

/-- The winning configuration of variant 1 carries the counts of one of
its unit-count trials. -/
theorem calculateMixedConfigV1_counts (maxFootprint maxGFA : ℚ)
    (templates : UnitType → UnitTemplate) (ratios : ScenarioRatios)
    (config : MixedScenarioV1.Config)
    (h : MixedScenarioV1.calculateMixedConfig maxFootprint maxGFA templates ratios
      = some config) :
    ∃ t ∈ List.range' 4 17, config.counts = countsFor ratios t := by
  rw [calculateMixedConfigV1_eq, Option.map_eq_some'] at h
  obtain ⟨c, hc, rfl⟩ := h
  obtain ⟨hmem, -, -, -, -⟩ := utilFold_spec _ _ _ _ hc
  rw [MixedScenarioV1.candidates, List.mem_map] at hmem
  obtain ⟨t, ht, rfl⟩ := hmem
  exact ⟨t, ht, rfl⟩

/-- The winning configuration of variant 2 carries the counts of one of
its unit-count trials. -/
theorem calculateMixedConfigV2_counts (lotArea lotWidth lotDepth : ℚ) (rules : CodeRule)
    (templates : UnitType → UnitTemplate) (ratios : ScenarioRatios)
    (config : MixedScenarioV2.Config)
    (h : MixedScenarioV2.calculateMixedConfig lotArea lotWidth lotDepth rules templates ratios
      = some config) :
    ∃ t ∈ List.range' 2 19, config.counts = countsFor ratios t := by
  rw [calculateMixedConfigV2_eq, Option.map_eq_some'] at h
  obtain ⟨c, hc, rfl⟩ := h
  obtain ⟨hmem, -, -, -, -⟩ := utilFold_spec _ _ _ _ hc
  rw [MixedScenarioV2.candidates, List.mem_map] at hmem
  obtain ⟨t, ht, rfl⟩ := hmem
  exact ⟨t, ht, rfl⟩

/-- C10: in both comparator variants, every returned scenario's mix gives
count 0 to every type whose target ratio in its scenario definition is 0,
and count ≥ 1 to every type with a positive target ratio. -/
theorem C10_mix_respects_ratios :
    (∀ (property : Property) (constraints : Option MixedScenarioV1.Constraints)
        (marketData : Option Prices) (s : MixedScenarioV1.Scenario),
      s ∈ MixedScenarioV1.generateMixedScenarios property constraints marketData →
      ∃ sd ∈ SCENARIO_DEFINITIONS, s.name = sd.name
        ∧ (∀ u, sd.ratios.get u = 0 → s.mix.count u = 0)
        ∧ (∀ u, 0 < sd.ratios.get u → 1 ≤ s.mix.count u))
    ∧ (∀ (property : Property) (constraints : Option MixedScenarioV1.Constraints)
        (marketData : Option Prices) (s : MixedScenarioV2.Scenario),
      s ∈ MixedScenarioV2.generateMixedScenarios property constraints marketData →
      ∃ sd ∈ SCENARIO_DEFINITIONS, s.name = sd.name
        ∧ (∀ u, sd.ratios.get u = 0 → s.mix.count u = 0)
        ∧ (∀ u, 0 < sd.ratios.get u → 1 ≤ s.mix.count u)) := by
  constructor
  · intro property constraints marketData s hs
    obtain ⟨sd, hsd, config, maxF, maxG, hconfig, rfl⟩ :=
      generateMixedScenariosV1_mem' property constraints marketData s hs
    obtain ⟨t, -, hcounts⟩ := calculateMixedConfigV1_counts maxF maxG _ _ _ hconfig
    refine ⟨sd, hsd, rfl, ?_, ?_⟩
    · intro u hu
      show config.counts.count u = 0
      rw [hcounts]
      exact countsFor_zero _ _ _ (by rw [hu]; exact lt_irrefl 0)
    · intro u hu
      show 1 ≤ config.counts.count u
      rw [hcounts]
      exact countsFor_pos _ _ _ hu
  · intro property constraints marketData s hs
    cases hrules : getRCodeRules property.rCode with
    | none =>
      rw [MixedScenarioV2.generateMixedScenarios, hrules] at hs
      exact absurd hs (by simp)
    | some rules =>
      obtain ⟨sd, hsd, config, hconfig, rfl⟩ :=
        generateMixedScenariosV2_mem property constraints marketData rules hrules s hs
      obtain ⟨t, -, hcounts⟩ := calculateMixedConfigV2_counts _ _ _ _ _ _ _ hconfig
      refine ⟨sd, hsd, rfl, ?_, ?_⟩
      · intro u hu
        show config.counts.count u = 0
        rw [hcounts]
        exact countsFor_zero _ _ _ (by rw [hu]; exact lt_irrefl 0)
      · intro u hu
        show 1 ≤ config.counts.count u
        rw [hcounts]
        exact countsFor_pos _ _ _ hu

end ClaimC10

section ConcreteComparatorRuns

/-- Variant 1's search at `maxFootprint = 400`, `maxGFA = 800` (the
default R20 ceilings of an 800 sqm lot) for the 'Balanced Affordable'
ratios: the winner is 3 two-beds and 3 three-beds, with utilization
91.875% stored as 92. -/
theorem calculateMixedConfigV1_BA_800 :
    MixedScenarioV1.calculateMixedConfig 400 800 UNIT_TEMPLATES ⟨1/2, 1/2, 0⟩
      = some ⟨⟨3, 3, 0⟩, 6, 390, 735, 8, 92⟩ := by
  norm_num [MixedScenarioV1.calculateMixedConfig, MixedScenarioV1.candidates,
    MixedScenarioV1.mkCand, MixedScenarioV1.passes, MixedScenarioV1.Cand.toConfig,
    utilFold, utilStep, countsFor_BA, UNIT_TEMPLATES, List.range'_succ]
  repeat' apply And.intro
  all_goals first
    | rfl
    | (apply int_ceil_eval <;> norm_num)
    | (apply jsRound_evalInt <;> norm_num)

/-- Variant 2's search on a 100000 sqm R20 lot (width 20, depth 40) for
the 'Balanced Affordable' ratios: every trial is compliant, the winner is
the 20-unit trial, and its utilization 2450/50000 = 4.9% is stored as
5. -/
theorem calculateMixedConfigV2_BA_100000 :
    MixedScenarioV2.calculateMixedConfig 100000 20 40 R20 UNIT_TEMPLATES ⟨1/2, 1/2, 0⟩
      = some ⟨⟨10, 10, 0⟩, 20, 1300, 2450, 25, 5, ⟨90, 50, 160, 300⟩, 75, 1675, 98325,
          some ⟨40, 5, 45, 810⟩, 25/1000, 17/1000, 983/1000, 5000⟩ := by
  norm_num [MixedScenarioV2.calculateMixedConfig, MixedScenarioV2.candidates,
    MixedScenarioV2.mkCand, MixedScenarioV2.passes, MixedScenarioV2.Cand.toConfig,
    utilFold, utilStep, countsFor_BA, UNIT_TEMPLATES, List.range'_succ,
    calculateInfrastructureArea, determineSiteLayout, calcPark_R20, parkingOfRule_R20,
    R20_label, R20_maxPlotRatio, R20_maxSiteCoverage, R20_minOpenSpace, R20_minLotSize,
    ite_standard_battleAxe]
  have hj1 : jsRound ((49:ℚ)/2) = 25 := by apply jsRound_evalInt <;> norm_num
  have hj2 : jsRound ((67:ℚ)/4) = 17 := by apply jsRound_evalInt <;> norm_num
  have hj3 : jsRound ((3933:ℚ)/4) = 983 := by apply jsRound_evalInt <;> norm_num
  repeat' apply And.intro
  all_goals first
    | rfl
    | (apply int_ceil_eval <;> norm_num)
    | (apply jsRound_evalInt <;> norm_num)
    | (norm_num [hj1, hj2, hj3])

/-- Variant 1's output on an 800 sqm R20 lot contains the 'Balanced
Affordable' scenario built from the winning configuration above. -/
theorem scenarioV1_800_mem :
    MixedScenarioV1.createScenario ⟨"Balanced Affordable", "LOW", ⟨1/2, 1/2, 0⟩⟩
        ⟨⟨3, 3, 0⟩, 6, 390, 735, 8, 92⟩ defaultPrices 800
      ∈ MixedScenarioV1.generateMixedScenarios ⟨800, 20, 40, "R20"⟩ none none := by
  have hb : calculateBuildableArea 800 "R20" = some (buildableAreaOfRule 800 R20) := by
    simp [calculateBuildableArea, getRCodeRules]
  have h1 : (buildableAreaOfRule 800 R20).maxSiteCoverage = 400 := by
    norm_num [buildableAreaOfRule, R20]
  have h2 : (buildableAreaOfRule 800 R20).maxGFA = 800 := by
    norm_num [buildableAreaOfRule, R20]
  rw [MixedScenarioV1.generateMixedScenarios, hb]
  simp only [h1, h2]
  apply List.mem_filterMap.mpr
  refine ⟨⟨"Balanced Affordable", "LOW", ⟨1/2, 1/2, 0⟩⟩, by simp [SCENARIO_DEFINITIONS], ?_⟩
  rw [show (⟨"Balanced Affordable", "LOW", ⟨1/2, 1/2, 0⟩⟩ : ScenarioDef).ratios
      = ⟨1/2, 1/2, 0⟩ from rfl, calculateMixedConfigV1_BA_800]
  rfl

/-- Variant 2's output on a 100000 sqm R20 lot contains the 'Balanced
Affordable' scenario built from the winning configuration above. -/
theorem scenarioV2_100000_mem :
    MixedScenarioV2.createScenario ⟨"Balanced Affordable", "LOW", ⟨1/2, 1/2, 0⟩⟩
        ⟨⟨10, 10, 0⟩, 20, 1300, 2450, 25, 5, ⟨90, 50, 160, 300⟩, 75, 1675, 98325,
          some ⟨40, 5, 45, 810⟩, 25/1000, 17/1000, 983/1000, 5000⟩ defaultPrices
      ∈ MixedScenarioV2.generateMixedScenarios ⟨100000, 20, 40, "R20"⟩ none none := by
  rw [MixedScenarioV2.generateMixedScenarios,
    show getRCodeRules "R20" = some R20 from rfl]
  apply List.mem_filterMap.mpr
  refine ⟨⟨"Balanced Affordable", "LOW", ⟨1/2, 1/2, 0⟩⟩, by simp [SCENARIO_DEFINITIONS], ?_⟩
  rw [show (⟨"Balanced Affordable", "LOW", ⟨1/2, 1/2, 0⟩⟩ : ScenarioDef).ratios
      = ⟨1/2, 1/2, 0⟩ from rfl, calculateMixedConfigV2_BA_100000]
  rfl

end ConcreteComparatorRuns

section SelectBestMembership

/-- A winner of the optimizer's selection loop is a passing element that
no passing element strictly beats. -/
theorem selectBest_some_mem {α : Type _} (f : α → ℚ) (P : α → Bool) (xs : List α) (m : α)
    (h : selectBest f P xs = some m) :
    m ∈ xs ∧ P m = true ∧ ∀ x ∈ xs, P x = true → f x ≤ f m := by
  rw [selectBest_eq_firstArgmax] at h
  obtain ⟨l1, l2, hsplit, -, hall⟩ := firstArgmax_spec f _ m h
  have hm : m ∈ xs.filter P := by
    rw [hsplit]
    exact List.mem_append_right _ (List.mem_cons_self _ _)
  obtain ⟨hmem, hP⟩ := List.mem_filter.mp hm
  refine ⟨hmem, hP, ?_⟩
  intro x hx hPx
  exact hall x (List.mem_filter.mpr ⟨hx, hPx⟩)

end SelectBestMembership

section ClaimC3

/-- C3 counterexample: on a 100000 sqm R20 lot, comparator variant 2
returns the 'Balanced Affordable' scenario whose utilization
`totalGFA / maxGFA = 2450 / 50000` is far below both observed bands
(50–95% and 70–95%), refuting the claim that both variants discard
configurations outside a utilization band. -/
theorem C3_counterexample :
    ∃ s ∈ MixedScenarioV2.generateMixedScenarios ⟨100000, 20, 40, "R20"⟩ none none,
      s.name = "Balanced Affordable"
      ∧ s.totalGFA = 2450
      ∧ (getRCodeRules "R20").map (fun r => (100000 : ℚ) * r.maxPlotRatio) = some 50000
      ∧ ((2450 : ℚ) / 50000 < 1/2)
      ∧ s.utilization = 5 := by
  refine ⟨_, scenarioV2_100000_mem, rfl, rfl, ?_, by norm_num, rfl⟩
  norm_num [getRCodeRules, R20]

/-- C3 amended: variant 1 keeps only trials whose utilization lies in the
50–95% band (stored rounded value between 50 and 95) and returns the
highest-utilization passing trial; variant 2 enforces no utilization band
— it keeps every compliant trial — and likewise returns the
highest-utilization compliant trial. -/
theorem C3_utilization_selection :
    (∀ (maxFootprint maxGFA : ℚ) (templates : UnitType → UnitTemplate)
        (ratios : ScenarioRatios) (config : MixedScenarioV1.Config),
      MixedScenarioV1.calculateMixedConfig maxFootprint maxGFA templates ratios
        = some config →
      ∃ c ∈ MixedScenarioV1.candidates maxGFA templates ratios,
        config = c.toConfig
        ∧ (1/2 : ℚ) ≤ c.utilization ∧ c.utilization ≤ 19/20
        ∧ (50 : ℤ) ≤ config.utilization ∧ config.utilization ≤ 95
        ∧ ∀ c' ∈ MixedScenarioV1.candidates maxGFA templates ratios,
            MixedScenarioV1.passes maxFootprint maxGFA c' = true →
            c'.utilization ≤ c.utilization)
    ∧ (∀ (lotArea lotWidth lotDepth : ℚ) (rules : CodeRule)
        (templates : UnitType → UnitTemplate) (ratios : ScenarioRatios)
        (config : MixedScenarioV2.Config),
      MixedScenarioV2.calculateMixedConfig lotArea lotWidth lotDepth rules templates ratios
        = some config →
      ∃ c ∈ MixedScenarioV2.candidates lotArea lotWidth lotDepth rules templates ratios,
        config = c.toConfig
        ∧ MixedScenarioV2.passes rules c = true
        ∧ ∀ c' ∈ MixedScenarioV2.candidates lotArea lotWidth lotDepth rules templates ratios,
            MixedScenarioV2.passes rules c' = true →
            c'.utilization ≤ c.utilization) := by
  constructor
  · intro maxFootprint maxGFA templates ratios config h
    rw [calculateMixedConfigV1_eq, Option.map_eq_some'] at h
    obtain ⟨c, hc, rfl⟩ := h
    obtain ⟨hmem, hP, -, -, hmax⟩ := utilFold_spec _ _ _ _ hc
    have hband := hP
    simp only [MixedScenarioV1.passes, Bool.and_eq_true, decide_eq_true_eq] at hband
    refine ⟨c, hmem, rfl, hband.1.2, hband.2, ?_, ?_, ?_⟩
    · show (50:ℤ) ≤ jsRound (c.utilization * 100)
      unfold jsRound
      rw [Int.le_floor]
      push_cast
      have := hband.1.2
      linarith
    · show jsRound (c.utilization * 100) ≤ 95
      have h96 : jsRound (c.utilization * 100) < 96 := by
        unfold jsRound
        rw [Int.floor_lt]
        push_cast
        have := hband.2
        linarith
      omega
    · intro c' hc' hP'
      exact hmax c' hc' hP'
  · intro lotArea lotWidth lotDepth rules templates ratios config h
    rw [calculateMixedConfigV2_eq, Option.map_eq_some'] at h
    obtain ⟨c, hc, rfl⟩ := h
    obtain ⟨hmem, hP, -, -, hmax⟩ := utilFold_spec _ _ _ _ hc
    exact ⟨c, hmem, rfl, hP, fun c' hc' hP' => hmax c' hc' hP'⟩

/-- Witness for `C3_utilization_selection`, applying it to the two
concrete comparator runs computed above. -/
theorem C3_utilization_selection_witness :
    (MixedScenarioV1.calculateMixedConfig 400 800 UNIT_TEMPLATES ⟨1/2, 1/2, 0⟩
        = some ⟨⟨3, 3, 0⟩, 6, 390, 735, 8, 92⟩
      ∧ ∃ c ∈ MixedScenarioV1.candidates 800 UNIT_TEMPLATES ⟨1/2, 1/2, 0⟩,
        (⟨⟨3, 3, 0⟩, 6, 390, 735, 8, 92⟩ : MixedScenarioV1.Config) = c.toConfig
        ∧ (1/2 : ℚ) ≤ c.utilization ∧ c.utilization ≤ 19/20
        ∧ (50 : ℤ) ≤ (⟨⟨3, 3, 0⟩, 6, 390, 735, 8, 92⟩ : MixedScenarioV1.Config).utilization
        ∧ (⟨⟨3, 3, 0⟩, 6, 390, 735, 8, 92⟩ : MixedScenarioV1.Config).utilization ≤ 95
        ∧ ∀ c' ∈ MixedScenarioV1.candidates 800 UNIT_TEMPLATES ⟨1/2, 1/2, 0⟩,
            MixedScenarioV1.passes 400 800 c' = true → c'.utilization ≤ c.utilization)
    ∧ (∃ c ∈ MixedScenarioV2.candidates 100000 20 40 R20 UNIT_TEMPLATES ⟨1/2, 1/2, 0⟩,
        (⟨⟨10, 10, 0⟩, 20, 1300, 2450, 25, 5, ⟨90, 50, 160, 300⟩, 75, 1675, 98325,
          some ⟨40, 5, 45, 810⟩, 25/1000, 17/1000, 983/1000, 5000⟩ : MixedScenarioV2.Config)
          = c.toConfig
        ∧ MixedScenarioV2.passes R20 c = true
        ∧ ∀ c' ∈ MixedScenarioV2.candidates 100000 20 40 R20 UNIT_TEMPLATES ⟨1/2, 1/2, 0⟩,
            MixedScenarioV2.passes R20 c' = true → c'.utilization ≤ c.utilization) :=
  ⟨⟨calculateMixedConfigV1_BA_800,
    C3_utilization_selection.1 400 800 UNIT_TEMPLATES ⟨1/2, 1/2, 0⟩ _
      calculateMixedConfigV1_BA_800⟩,
   C3_utilization_selection.2 100000 20 40 R20 UNIT_TEMPLATES ⟨1/2, 1/2, 0⟩ _
      calculateMixedConfigV2_BA_100000⟩

end ClaimC3

section ConcreteYieldEval

/-- A single 2-bed dwelling on an 800 sqm R20 lot (width 20, depth 40) is
compliant. -/
theorem evaluateMix_single_800_compliant :
    (evaluateMix ⟨1, 0, 0⟩ 800 20 40 R20 (determineSiteLayout 20 40)
      (envelopeOfRule 20 40 R20)).compliant = true := by
  norm_num [evaluateMix, calculateInfrastructureArea, determineSiteLayout,
    parkingOfRule_R20, ite_standard_battleAxe, R20_maxPlotRatio, R20_maxSiteCoverage,
    R20_minOpenSpace, dwelling2bed, dwelling3bed, dwelling4bed]

end ConcreteYieldEval

section ClaimC1

/-- C1 counterexample: comparator variant 1 on an 800 sqm R20 lot returns
the 'Balanced Affordable' scenario with plot ratio 735/800 = 0.919, far
above R20's `maxPlotRatio` of 1/2 — variant 1 checks only the footprint
ceiling and the multi-storey GFA ceiling, so its output can violate
`plotRatio ≤ maxPlotRatio`. -/
theorem C1_counterexample :
    ∃ s ∈ MixedScenarioV1.generateMixedScenarios ⟨800, 20, 40, "R20"⟩ none none,
      s.name = "Balanced Affordable"
      ∧ (getRCodeRules "R20").map (fun r => r.maxPlotRatio) = some (1/2)
      ∧ s.plotRatio = 735/800
      ∧ ¬ s.plotRatio ≤ 1/2 := by
  refine ⟨_, scenarioV1_800_mem, rfl, by norm_num [getRCodeRules, R20], ?_, ?_⟩ <;>
    norm_num [MixedScenarioV1.createScenario]

/-- C1 amended: every configuration the yield optimizer marks compliant
satisfies `plotRatio ≤ maxPlotRatio`, `siteCoverageRatio ≤
maxSiteCoverage` and `openSpaceRatio ≥ minOpenSpace`; every configuration
`optimizeYield` returns is such an evaluation for the lot's rule; and
every scenario comparator variant 2 returns additionally satisfies
`lotArea/totalUnits ≥ minLotSize`.  (Variant 1 gives no such guarantee:
see the counterexample.) -/
theorem C1_compliant_configurations :
    (∀ (mix : Mix) (lotArea lotWidth lotDepth : ℚ) (rules : CodeRule)
        (layout : SiteLayout) (envelope : Envelope),
      (evaluateMix mix lotArea lotWidth lotDepth rules layout envelope).compliant = true →
      (evaluateMix mix lotArea lotWidth lotDepth rules layout envelope).plotRatio
          ≤ rules.maxPlotRatio
        ∧ (evaluateMix mix lotArea lotWidth lotDepth rules layout envelope).siteCoverageRatio
          ≤ rules.maxSiteCoverage
        ∧ (evaluateMix mix lotArea lotWidth lotDepth rules layout envelope).openSpaceRatio
          ≥ rules.minOpenSpace)
    ∧ (∀ (params : Property) (rules : CodeRule) (r : YieldResult),
      getRCodeRules params.rCode = some rules → optimizeYield params = some r →
      r.rules = rules
        ∧ ∃ mix, r.config = evaluateMix mix params.lotArea params.lotWidth params.lotDepth
            rules (determineSiteLayout params.lotWidth params.lotDepth)
            (envelopeOfRule params.lotWidth params.lotDepth rules))
    ∧ (∀ (property : Property) (constraints : Option MixedScenarioV1.Constraints)
        (marketData : Option Prices) (rules : CodeRule) (s : MixedScenarioV2.Scenario),
      getRCodeRules property.rCode = some rules →
      s ∈ MixedScenarioV2.generateMixedScenarios property constraints marketData →
      ∃ sd ∈ SCENARIO_DEFINITIONS,
        ∃ c ∈ MixedScenarioV2.candidates property.lotArea property.lotWidth
            property.lotDepth rules UNIT_TEMPLATES sd.ratios,
          s = MixedScenarioV2.createScenario sd c.toConfig (marketData.getD defaultPrices)
          ∧ c.plotRatio ≤ rules.maxPlotRatio
          ∧ c.siteCoverageRatio ≤ rules.maxSiteCoverage
          ∧ c.openSpaceRatio ≥ rules.minOpenSpace
          ∧ c.lotSizePerUnit ≥ rules.minLotSize) := by
  refine ⟨evaluateMix_compliant_spec, ?_, ?_⟩
  · intro params rules r h hopt
    rw [optimizeYield_some params rules h] at hopt
    injection hopt with hopt
    subst hopt
    refine ⟨rfl, ?_⟩
    cases hS : selectBest (fun e => e.estimatedRevenue) (fun e => e.compliant)
        (yieldEvals params rules) with
    | none =>
      refine ⟨⟨1, 0, 0⟩, ?_⟩
      simp only [hS]
    | some b =>
      obtain ⟨hmem, -, -⟩ := selectBest_some_mem _ _ _ _ hS
      obtain ⟨m0, _, hm_eq⟩ := yieldEvals_mem params rules b hmem
      refine ⟨m0, ?_⟩
      simp only [hS]
      exact hm_eq
  · intro property constraints marketData rules s hrules hs
    obtain ⟨sd, hsd, config, hconfig, rfl⟩ :=
      generateMixedScenariosV2_mem property constraints marketData rules hrules s hs
    rw [calculateMixedConfigV2_eq, Option.map_eq_some'] at hconfig
    obtain ⟨c, hc, rfl⟩ := hconfig
    obtain ⟨hmem, hP, -, -, -⟩ := utilFold_spec _ _ _ _ hc
    simp only [MixedScenarioV2.passes, Bool.and_eq_true, decide_eq_true_eq] at hP
    exact ⟨sd, hsd, c, hmem, rfl, hP.1.1.1, hP.1.1.2, hP.1.2, hP.2⟩

/-- Witness for `C1_compliant_configurations`, applying each part at a
concrete input. -/
theorem C1_compliant_configurations_witness :
    ((evaluateMix ⟨1, 0, 0⟩ 800 20 40 R20 (determineSiteLayout 20 40)
        (envelopeOfRule 20 40 R20)).compliant = true
      ∧ (evaluateMix ⟨1, 0, 0⟩ 800 20 40 R20 (determineSiteLayout 20 40)
          (envelopeOfRule 20 40 R20)).plotRatio ≤ R20.maxPlotRatio
      ∧ (evaluateMix ⟨1, 0, 0⟩ 800 20 40 R20 (determineSiteLayout 20 40)
          (envelopeOfRule 20 40 R20)).siteCoverageRatio ≤ R20.maxSiteCoverage
      ∧ (evaluateMix ⟨1, 0, 0⟩ 800 20 40 R20 (determineSiteLayout 20 40)
          (envelopeOfRule 20 40 R20)).openSpaceRatio ≥ R20.minOpenSpace)
    ∧ (∃ r, optimizeYield ⟨1, 1, 1, "R20"⟩ = some r
        ∧ r.rules = R20
        ∧ ∃ mix, r.config = evaluateMix mix 1 1 1 R20 (determineSiteLayout 1 1)
            (envelopeOfRule 1 1 R20))
    ∧ (∃ s ∈ MixedScenarioV2.generateMixedScenarios ⟨100000, 20, 40, "R20"⟩ none none,
        ∃ sd ∈ SCENARIO_DEFINITIONS,
          ∃ c ∈ MixedScenarioV2.candidates 100000 20 40 R20 UNIT_TEMPLATES sd.ratios,
            s = MixedScenarioV2.createScenario sd c.toConfig defaultPrices
            ∧ c.plotRatio ≤ R20.maxPlotRatio
            ∧ c.siteCoverageRatio ≤ R20.maxSiteCoverage
            ∧ c.openSpaceRatio ≥ R20.minOpenSpace
            ∧ c.lotSizePerUnit ≥ R20.minLotSize) := by
  refine ⟨⟨evaluateMix_single_800_compliant,
    C1_compliant_configurations.1 ⟨1, 0, 0⟩ 800 20 40 R20 _ _
      evaluateMix_single_800_compliant⟩, ?_, ?_⟩
  · obtain ⟨hr, mix, hmix⟩ := C1_compliant_configurations.2.1 ⟨1, 1, 1, "R20"⟩ R20 _
      rfl (optimizeYield_some ⟨1, 1, 1, "R20"⟩ R20 rfl)
    exact ⟨_, optimizeYield_some ⟨1, 1, 1, "R20"⟩ R20 rfl, hr, mix, hmix⟩
  · obtain ⟨sd, hsd, c, hc, heq, h1, h2, h3, h4⟩ :=
      C1_compliant_configurations.2.2 ⟨100000, 20, 40, "R20"⟩ none none R20 _
        rfl scenarioV2_100000_mem
    exact ⟨_, scenarioV2_100000_mem, sd, hsd, c, hc, heq, h1, h2, h3, h4⟩

end ClaimC1

section ClaimC2

/-- C2: for every lot with a known code, the enumeration covers total
unit counts 1..20 with the 4-bed count capped at `⌊0.3·total⌋`, and if
any enumerated configuration is compliant then `optimizeYield` returns a
compliant enumerated configuration whose estimated revenue — priced from
the fixed reference table 2bed=450000, 3bed=620000, 4bed=780000, with no
caller-supplied prices anywhere in the optimizer — is maximal over all
compliant enumerated configurations, and which is the first configuration
in enumeration order attaining that maximum. -/
theorem C2_revenue_optimal (params : Property) (rules : CodeRule)
    (hrules : getRCodeRules params.rCode = some rules)
    (hex : ∃ e ∈ yieldEvals params rules, e.compliant = true) :
    (∀ m ∈ yieldMixes params.lotWidth rules,
        1 ≤ m.twoBed + m.threeBed + m.fourBed
        ∧ m.twoBed + m.threeBed + m.fourBed ≤ 20
        ∧ m.fourBed ≤ 3 * (m.twoBed + m.threeBed + m.fourBed) / 10)
    ∧ ∃ result, optimizeYield params = some result
      ∧ result.config.compliant = true
      ∧ result.config ∈ yieldEvals params rules
      ∧ result.config.estimatedRevenue
          = (result.config.mix.twoBed : ℚ) * 450000
            + (result.config.mix.threeBed : ℚ) * 620000
            + (result.config.mix.fourBed : ℚ) * 780000
      ∧ (∀ e ∈ yieldEvals params rules, e.compliant = true →
          e.estimatedRevenue ≤ result.config.estimatedRevenue)
      ∧ ∃ l₁ l₂,
          (yieldEvals params rules).filter (fun e => e.compliant) = l₁ ++ result.config :: l₂
          ∧ ∀ e ∈ l₁, e.estimatedRevenue < result.config.estimatedRevenue := by
  refine ⟨yieldMixes_bounds _ _, ?_⟩
  obtain ⟨e0, he0, hc0⟩ := hex
  cases hS : selectBest (fun e => e.estimatedRevenue) (fun e => e.compliant)
      (yieldEvals params rules) with
  | none =>
    exfalso
    rw [selectBest_eq_firstArgmax] at hS
    have hnil := firstArgmax_eq_none _ _ hS
    have : e0 ∈ ([] : List EvaluatedConfig) := by
      rw [← hnil]
      exact List.mem_filter.mpr ⟨he0, hc0⟩
    simp at this
  | some m =>
    have hopt := optimizeYield_some params rules hrules
    rw [hS] at hopt
    obtain ⟨hmem, hP, hmax⟩ := selectBest_some_mem _ _ _ _ hS
    have hfa := hS
    rw [selectBest_eq_firstArgmax] at hfa
    obtain ⟨l1, l2, hsplit, hpre, -⟩ := firstArgmax_spec _ _ _ hfa
    obtain ⟨m0, hm0, hm_eq⟩ := yieldEvals_mem params rules m hmem
    have hb := yieldMixes_bounds params.lotWidth rules m0 hm0
    have h0 : m0.twoBed + m0.threeBed + m0.fourBed ≠ 0 := by omega
    obtain ⟨hrev, hmix⟩ := evaluateMix_revenue m0 params.lotArea params.lotWidth
      params.lotDepth rules (determineSiteLayout params.lotWidth params.lotDepth)
      (envelopeOfRule params.lotWidth params.lotDepth rules) h0
    refine ⟨_, hopt, hP, hmem, ?_, hmax, l1, l2, hsplit, hpre⟩
    show m.estimatedRevenue = _
    rw [hm_eq, hrev, hmix]

/-- Witness for `C2_revenue_optimal`: on an 800 sqm R20 lot the very
first enumerated configuration (a single 2-bed) is compliant, so the
optimizer returns a compliant revenue-maximal configuration. -/
theorem C2_revenue_optimal_witness :
    (getRCodeRules "R20" = some R20
      ∧ ∃ e ∈ yieldEvals ⟨800, 20, 40, "R20"⟩ R20, e.compliant = true)
    ∧ ∃ result, optimizeYield ⟨800, 20, 40, "R20"⟩ = some result
      ∧ result.config.compliant = true
      ∧ (∀ e ∈ yieldEvals ⟨800, 20, 40, "R20"⟩ R20, e.compliant = true →
          e.estimatedRevenue ≤ result.config.estimatedRevenue) := by
  have hex : ∃ e ∈ yieldEvals ⟨800, 20, 40, "R20"⟩ R20, e.compliant = true :=
    ⟨evaluateMix ⟨1, 0, 0⟩ 800 20 40 R20 (determineSiteLayout 20 40)
        (envelopeOfRule 20 40 R20),
      List.mem_map_of_mem _ (by decide), evaluateMix_single_800_compliant⟩
  obtain ⟨-, result, hopt, hcomp, -, -, hmax, -⟩ :=
    C2_revenue_optimal ⟨800, 20, 40, "R20"⟩ R20 rfl hex
  exact ⟨⟨rfl, hex⟩, result, hopt, hcomp, hmax⟩

end ClaimC2

section ClaimC9

/-- The infrastructure estimate is never negative. -/
theorem infra_nonneg (n : ℕ) (layout : SiteLayout) :
    0 ≤ (calculateInfrastructureArea n layout).totalInfraArea := by
  simp only [calculateInfrastructureArea]
  split_ifs <;> positivity

/-- Visitor bays are never negative (for a nonnegative visitor ratio). -/
theorem visitorBays_nonneg (n : ℕ) (rules : CodeRule)
    (hr : 0 ≤ rules.visitorParkingRatio) : (0:ℤ) ≤ (parkingOfRule n rules).visitorBays :=
  Int.ceil_nonneg (mul_nonneg (Nat.cast_nonneg n) hr)

/-- If a nonempty mix fails the open-space check, the evaluation is not
compliant. -/
theorem evaluateMix_not_compliant_of_openspace (mix : Mix) (lotArea lotWidth lotDepth : ℚ)
    (rules : CodeRule) (layout : SiteLayout) (envelope : Envelope)
    (h0 : mix.twoBed + mix.threeBed + mix.fourBed ≠ 0)
    (h : ¬ ((lotArea - ((mix.twoBed : ℚ) * dwelling2bed.groundFloorArea
        + (mix.threeBed : ℚ) * dwelling3bed.groundFloorArea
        + (mix.fourBed : ℚ) * dwelling4bed.groundFloorArea
        + (calculateInfrastructureArea (mix.twoBed + mix.threeBed + mix.fourBed)
            layout).totalInfraArea
        + ((parkingOfRule (mix.twoBed + mix.threeBed + mix.fourBed) rules).visitorBays : ℚ)
            * 15)) / lotArea
        ≥ rules.minOpenSpace)) :
    (evaluateMix mix lotArea lotWidth lotDepth rules layout envelope).compliant = false := by
  simp only [evaluateMix, if_neg h0]
  rw [decide_eq_false h, Bool.and_false]

/-- On a 1 sqm lot no mix is compliant under R20: the built coverage of
even one dwelling exceeds the lot, so the open-space check fails. -/
theorem evaluateMix_tiny_not_compliant (mix : Mix) (layout : SiteLayout) (env : Envelope) :
    (evaluateMix mix 1 1 1 R20 layout env).compliant = false := by
  by_cases h0 : mix.twoBed + mix.threeBed + mix.fourBed = 0
  · simp [evaluateMix, h0]
  · apply evaluateMix_not_compliant_of_openspace mix 1 1 1 R20 layout env h0
    have ha : (0:ℚ) ≤ (mix.twoBed : ℚ) := Nat.cast_nonneg _
    have hb : (0:ℚ) ≤ (mix.threeBed : ℚ) := Nat.cast_nonneg _
    have hc : (0:ℚ) ≤ (mix.fourBed : ℚ) := Nat.cast_nonneg _
    have hsum : (1:ℚ) ≤ (mix.twoBed : ℚ) + (mix.threeBed : ℚ) + (mix.fourBed : ℚ) := by
      have : 1 ≤ mix.twoBed + mix.threeBed + mix.fourBed := Nat.one_le_iff_ne_zero.mpr h0
      exact_mod_cast this
    have hi : 0 ≤ (calculateInfrastructureArea (mix.twoBed + mix.threeBed + mix.fourBed)
        layout).totalInfraArea := infra_nonneg _ _
    have hp : (0:ℚ) ≤ ((parkingOfRule (mix.twoBed + mix.threeBed + mix.fourBed)
        R20).visitorBays : ℚ) := by
      have := visitorBays_nonneg (mix.twoBed + mix.threeBed + mix.fourBed) R20
        (by norm_num [R20])
      exact_mod_cast this
    rw [not_le, show R20.minOpenSpace = 1/2 from rfl, div_one]
    simp only [dwelling2bed, dwelling3bed, dwelling4bed]
    nlinarith [hi, hp, hsum, ha, hb, hc]

/-- C9: when no enumerated configuration is compliant, `optimizeYield`
returns the evaluation of the single-2-bed fallback mix, unconditionally
— no compliance filter is applied to the fallback. -/
theorem C9_fallback (params : Property) (rules : CodeRule)
    (hrules : getRCodeRules params.rCode = some rules)
    (hnone : ∀ e ∈ yieldEvals params rules, e.compliant = false) :
    optimizeYield params = some
      { config := evaluateMix ⟨1, 0, 0⟩ params.lotArea params.lotWidth params.lotDepth
          rules (determineSiteLayout params.lotWidth params.lotDepth)
          (envelopeOfRule params.lotWidth params.lotDepth rules)
        layout := determineSiteLayout params.lotWidth params.lotDepth
        rCode := params.rCode
        rules := rules } := by
  have hfilter : (yieldEvals params rules).filter (fun e => e.compliant) = [] := by
    rw [List.filter_eq_nil_iff]
    intro e he
    simp [hnone e he]
  have hS : selectBest (fun e => e.estimatedRevenue) (fun e => e.compliant)
      (yieldEvals params rules) = none := by
    rw [selectBest_eq_firstArgmax, hfilter]
    rfl
  rw [optimizeYield_some params rules hrules, hS]

/-- Witness for `C9_fallback`: on a degenerate 1 sqm R20 lot nothing is
compliant, the fallback is returned, and the fallback itself is not
compliant. -/
theorem C9_fallback_witness :
    getRCodeRules "R20" = some R20
    ∧ (∀ e ∈ yieldEvals ⟨1, 1, 1, "R20"⟩ R20, e.compliant = false)
    ∧ optimizeYield ⟨1, 1, 1, "R20"⟩ = some
        { config := evaluateMix ⟨1, 0, 0⟩ 1 1 1 R20 (determineSiteLayout 1 1)
            (envelopeOfRule 1 1 R20)
          layout := determineSiteLayout 1 1
          rCode := "R20"
          rules := R20 }
    ∧ (evaluateMix ⟨1, 0, 0⟩ 1 1 1 R20 (determineSiteLayout 1 1)
        (envelopeOfRule 1 1 R20)).compliant = false := by
  have hnone : ∀ e ∈ yieldEvals ⟨1, 1, 1, "R20"⟩ R20, e.compliant = false := by
    intro e he
    obtain ⟨m, -, rfl⟩ := yieldEvals_mem _ _ e he
    exact evaluateMix_tiny_not_compliant m _ _
  exact ⟨rfl, hnone, C9_fallback ⟨1, 1, 1, "R20"⟩ R20 rfl hnone,
    evaluateMix_tiny_not_compliant _ _ _⟩

end ClaimC9

section RemainingWitnesses

/-- Witness for `C10_mix_respects_ratios`, applying both parts to the
concrete generator outputs computed above. -/
theorem C10_mix_respects_ratios_witness :
    (∃ s ∈ MixedScenarioV1.generateMixedScenarios ⟨800, 20, 40, "R20"⟩ none none,
      ∃ sd ∈ SCENARIO_DEFINITIONS, s.name = sd.name
        ∧ (∀ u, sd.ratios.get u = 0 → s.mix.count u = 0)
        ∧ (∀ u, 0 < sd.ratios.get u → 1 ≤ s.mix.count u))
    ∧ (∃ s ∈ MixedScenarioV2.generateMixedScenarios ⟨100000, 20, 40, "R20"⟩ none none,
      ∃ sd ∈ SCENARIO_DEFINITIONS, s.name = sd.name
        ∧ (∀ u, sd.ratios.get u = 0 → s.mix.count u = 0)
        ∧ (∀ u, 0 < sd.ratios.get u → 1 ≤ s.mix.count u)) :=
  ⟨⟨_, scenarioV1_800_mem,
      C10_mix_respects_ratios.1 ⟨800, 20, 40, "R20"⟩ none none _ scenarioV1_800_mem⟩,
   ⟨_, scenarioV2_100000_mem,
      C10_mix_respects_ratios.2 ⟨100000, 20, 40, "R20"⟩ none none _ scenarioV2_100000_mem⟩⟩

/-- Witness for `C8_rule_invariants`, applying the per-rule part to the
R20 entry. -/
theorem C8_rule_invariants_witness :
    R20 ∈ allRules
    ∧ (0 < R20.minLotSize ∧ 0 < R20.maxPlotRatio ∧ R20.maxPlotRatio ≤ 1
      ∧ 0 < R20.minOpenSpace ∧ 0 < R20.maxSiteCoverage) :=
  ⟨by simp [allRules], C8_rule_invariants.1 R20 (by simp [allRules])⟩

end RemainingWitnesses
